import Mathlib

/-!
# Verification of the chiefbiiko/blake2b BLAKE2b implementation

Shallow embedding of the pure TypeScript BLAKE2b implementation found in
`src/mod.ts` (the streaming class: `GET32`, `ADD64AA`, `ADD64AC`, `B2B_G`,
`blake2bCompress`, `blake2bUpdate`, `blake2bDigest`) together with the
constants and the `finalized`-flag API of the wasm-backed class.

JavaScript semantics notes used throughout (documented at each definition):
* `Uint32Array` stores coerce values modulo 2^32; `Uint8Array` stores modulo
  2^8.  Bitwise operators (`^`, `<<`, `>>>`) act on 32-bit values; reading the
  result back from a `Uint32Array` yields the value modulo 2^32, which for
  the operand ranges arising here coincides with the `Nat` operations written
  below.
* the byte counter `t` is a JS number; it is an exact integer while below
  2^53 (the source itself notes "offset may not be higher than 2**53-1"),
  so it is embedded as `Nat`.
-/

set_option maxRecDepth 20000

namespace Blake2b

/-- 2^32, the `Uint32Array` wrap-around modulus. -/
def M32 : Nat := 4294967296

/-- 2^64, the modulus of the 64-bit word arithmetic being emulated. -/
def M64 : Nat := 18446744073709551616

/-- Exported constant `BYTES_MIN` (`mod.ts`). -/
def BYTES_MIN : Nat := 1

/-- Exported constant `BYTES_MAX` (`mod.ts`). -/
def BYTES_MAX : Nat := 64

/-- Exported constant `INPUTBYTES_MIN` (`mod.ts`). -/
def INPUTBYTES_MIN : Nat := 0

/-- Exported constant `INPUTBYTES_MAX` of the wasm-backed module:
`2n ** 128n - 1n`, a JS bigint, hence exact integer arithmetic. -/
def INPUTBYTES_MAX : Nat := 2 ^ 128 - 1

/-- Exported constant `DIGESTBYTES_MIN` of the plain-TypeScript module. -/
def DIGESTBYTES_MIN : Nat := 1

/-- Exported constant `DIGESTBYTES_MAX` of the plain-TypeScript module. -/
def DIGESTBYTES_MAX : Nat := 64

/-- Exported constant `KEYBYTES_MIN` (`mod.ts`). -/
def KEYBYTES_MIN : Nat := 0

/-- Exported constant `KEYBYTES_MAX` (`mod.ts`). -/
def KEYBYTES_MAX : Nat := 64

/-- Exported constant `SALTBYTES` (`mod.ts`). -/
def SALTBYTES : Nat := 16

/-- Exported constant `PERSONALBYTES` (`mod.ts`). -/
def PERSONALBYTES : Nat := 16

/-- Bit length of a natural number, with structural fuel so that the kernel
can evaluate it (fuel 256 suffices for all values below 2^256). -/
def bitLenAux : Nat → Nat → Nat
  | 0, _ => 0
  | fuel + 1, n => if n = 0 then 0 else bitLenAux fuel (n / 2) + 1

/-- Bit length of values below 2^256. -/
def bitLen (n : Nat) : Nat := bitLenAux 256 n

/-- IEEE 754 binary64 (JS number) rounding of a nonnegative integer:
round to 53 significand bits, ties to even.  Models the value a JS `number`
literal expression with integer value `n` actually holds. -/
def floatRound (n : Nat) : Nat :=
  if n < 9007199254740992 then n
  else
    let k := bitLen n - 1
    let ulp := 2 ^ (k - 52)
    let q := n / ulp
    let r := n % ulp
    if 2 * r < ulp then q * ulp
    else if 2 * r > ulp then (q + 1) * ulp
    else if q % 2 = 0 then q * ulp
    else (q + 1) * ulp

/-- Exported constant `INPUTBYTES_MAX` of the plain-TypeScript module:
the JS expression `2 ** 128 - 1` evaluated in float64 number arithmetic
(`2 ** 128` is exactly representable; the subtraction result is rounded). -/
def INPUTBYTES_MAX_number : Nat := floatRound (floatRound (2 ^ 128) - 1)

/-- Initialization vector, as 16 32-bit halves in (low, high) order
(`Blake2b.IV32` in the source). -/
def IV32 : List Nat :=
  [0xf3bcc908, 0x6a09e667,
   0x84caa73b, 0xbb67ae85,
   0xfe94f82b, 0x3c6ef372,
   0x5f1d36f1, 0xa54ff53a,
   0xade682d1, 0x510e527f,
   0x2b3e6c1f, 0x9b05688c,
   0xfb41bd6b, 0x1f83d9ab,
   0x137e2179, 0x5be0cd19]

/-- Message word permutation schedule (`Blake2b.SIGMA8` in the source). -/
def SIGMA8 : List Nat :=
  [0, 1, 2, 3, 4, 5, 6, 7, 8, 9, 10, 11, 12, 13, 14, 15,
   14, 10, 4, 8, 9, 15, 13, 6, 1, 12, 0, 2, 11, 7, 5, 3,
   11, 8, 12, 0, 5, 2, 15, 13, 10, 14, 3, 6, 7, 1, 9, 4,
   7, 9, 3, 1, 13, 12, 11, 14, 2, 6, 5, 10, 4, 0, 15, 8,
   9, 0, 5, 7, 2, 4, 10, 15, 14, 1, 11, 12, 6, 8, 3, 13,
   2, 12, 6, 10, 0, 11, 8, 3, 4, 13, 7, 5, 15, 14, 1, 9,
   12, 5, 1, 15, 14, 13, 4, 10, 0, 7, 6, 3, 9, 2, 8, 11,
   13, 11, 7, 14, 12, 1, 3, 9, 5, 0, 15, 4, 8, 6, 2, 10,
   6, 15, 14, 9, 11, 3, 0, 8, 12, 2, 13, 7, 1, 4, 10, 5,
   10, 2, 8, 4, 7, 6, 1, 5, 15, 11, 9, 14, 3, 12, 13, 0,
   0, 1, 2, 3, 4, 5, 6, 7, 8, 9, 10, 11, 12, 13, 14, 15,
   14, 10, 4, 8, 9, 15, 13, 6, 1, 12, 0, 2, 11, 7, 5, 3]

/-- Doubled permutation indices, offsets into the 32-halves layout
(`Blake2b.SIGMA82` in the source). -/
def SIGMA82 : List Nat := SIGMA8.map (fun x => x * 2)

/-- Little-endian 32-bit read of 4 bytes (`B2B_GET32` / `GET32` in the
source).  The source XORs shifted bytes; for byte-valued entries the result
read back as uint32 is exactly this `Nat` value. -/
def GET32 (arr : List Nat) (i : Nat) : Nat :=
  arr.getD i 0 ^^^ (arr.getD (i + 1) 0 <<< 8) ^^^
    (arr.getD (i + 2) 0 <<< 16) ^^^ (arr.getD (i + 3) 0 <<< 24)

/-- 64-bit unsigned addition of half-word pairs: v[a,a+1] += v[b,b+1]
(`ADD64AA` in the source).  The carry increments the high half exactly when
the low-half sum reaches 2^32; the `Uint32Array` stores wrap modulo 2^32. -/
def ADD64AA (v : List Nat) (a b : Nat) : List Nat :=
  let o0 := v.getD a 0 + v.getD b 0
  let o1 := v.getD (a + 1) 0 + v.getD (b + 1) 0
  let o1 := if o0 ≥ M32 then o1 + 1 else o1
  (v.set a (o0 % M32)).set (a + 1) (o1 % M32)

/-- 64-bit unsigned addition of an immediate split into halves:
v[a,a+1] += (b0, b1) (`ADD64AC` in the source).  The source's `if (b0 < 0)`
compensation is dead code here: every caller passes `b0` read from a
`Uint32Array`, hence nonnegative. -/
def ADD64AC (v : List Nat) (a b0 b1 : Nat) : List Nat :=
  let o0 := v.getD a 0 + b0
  let o1 := v.getD (a + 1) 0 + b1
  let o1 := if o0 ≥ M32 then o1 + 1 else o1
  (v.set a (o0 % M32)).set (a + 1) (o1 % M32)

/-- The inlined "(v[d,d+1] xor v[a,a+1]) rotated right by 32 bits" block of
`B2B_G`: XOR the halves and swap them. -/
def ROTR32X (v : List Nat) (d a : Nat) : List Nat :=
  let xor0 := v.getD d 0 ^^^ v.getD a 0
  let xor1 := v.getD (d + 1) 0 ^^^ v.getD (a + 1) 0
  (v.set d xor1).set (d + 1) xor0

/-- The inlined "(v[b,b+1] xor v[c,c+1]) rotated right by 24 bits" block of
`B2B_G`.  JS `<< 8` into a uint32 store is multiplication modulo 2^32. -/
def ROTR24X (v : List Nat) (b c : Nat) : List Nat :=
  let xor0 := v.getD b 0 ^^^ v.getD c 0
  let xor1 := v.getD (b + 1) 0 ^^^ v.getD (c + 1) 0
  (v.set b ((xor0 >>> 24) ^^^ (xor1 <<< 8 % M32))).set (b + 1)
    ((xor1 >>> 24) ^^^ (xor0 <<< 8 % M32))

/-- The inlined "rotated right by 16 bits" block of `B2B_G`. -/
def ROTR16X (v : List Nat) (d a : Nat) : List Nat :=
  let xor0 := v.getD d 0 ^^^ v.getD a 0
  let xor1 := v.getD (d + 1) 0 ^^^ v.getD (a + 1) 0
  (v.set d ((xor0 >>> 16) ^^^ (xor1 <<< 16 % M32))).set (d + 1)
    ((xor1 >>> 16) ^^^ (xor0 <<< 16 % M32))

/-- The inlined "rotated right by 63 bits" block of `B2B_G`. -/
def ROTR63X (v : List Nat) (b c : Nat) : List Nat :=
  let xor0 := v.getD b 0 ^^^ v.getD c 0
  let xor1 := v.getD (b + 1) 0 ^^^ v.getD (c + 1) 0
  (v.set b ((xor1 >>> 31) ^^^ (xor0 <<< 1 % M32))).set (b + 1)
    ((xor0 >>> 31) ^^^ (xor1 <<< 1 % M32))

/-- G mixing function (`B2B_G` in the source), operating on the 32-halves
working vector `v` and message vector `m`; `a b c d` are doubled (half-word)
offsets and `ix iy` doubled message-word offsets, exactly as at the call
sites.  Written as the sequence of the source's statement blocks. -/
def B2B_G (v m : List Nat) (a b c d ix iy : Nat) : List Nat :=
  let v := ADD64AA v a b
  let v := ADD64AC v a (m.getD ix 0) (m.getD (ix + 1) 0)
  let v := ROTR32X v d a
  let v := ADD64AA v c d
  let v := ROTR24X v b c
  let v := ADD64AA v a b
  let v := ADD64AC v a (m.getD iy 0) (m.getD (iy + 1) 0)
  let v := ROTR16X v d a
  let v := ADD64AA v c d
  ROTR63X v b c

/-- Streaming state of the class: chaining state `h` (16 uint32 halves),
input buffer `b` (128 bytes), byte counter `t`, buffer fill pointer `c`
and the configured digest length. -/
structure State where
  h : List Nat
  b : List Nat
  t : Nat
  c : Nat
  digestLength : Nat
  deriving DecidableEq, Repr

/-- The "init work variables" and counter/flag block of `blake2bCompress`:
v[0..16] = h, v[16..32] = IV, XOR the low 64 counter bits into v[24,25],
and complement v[28,29] for the last block (`~x` on a uint32 value equals
XOR with 0xffffffff). -/
def initV (h : List Nat) (t : Nat) (last : Bool) : List Nat :=
  let v := (List.range 16).map (fun i => h.getD i 0) ++ IV32
  let v := v.set 24 (v.getD 24 0 ^^^ (t % M32))
  let v := v.set 25 (v.getD 25 0 ^^^ (t / M32 % M32))
  if last then
    (v.set 28 (v.getD 28 0 ^^^ 0xffffffff)).set 29 (v.getD 29 0 ^^^ 0xffffffff)
  else v

/-- The "get little-endian words" block of `blake2bCompress`: the 128-byte
buffer as 32 uint32 message halves. -/
def loadM (b : List Nat) : List Nat :=
  (List.range 32).map (fun i => GET32 b (4 * i))

/-- One iteration of the "twelve rounds of mixing" loop of
`blake2bCompress`: the eight `B2B_G` column/diagonal calls of round `i`. -/
def mixRound (m v : List Nat) (i : Nat) : List Nat :=
  let v := B2B_G v m 0 8 16 24 (SIGMA82.getD (i * 16 + 0) 0) (SIGMA82.getD (i * 16 + 1) 0)
  let v := B2B_G v m 2 10 18 26 (SIGMA82.getD (i * 16 + 2) 0) (SIGMA82.getD (i * 16 + 3) 0)
  let v := B2B_G v m 4 12 20 28 (SIGMA82.getD (i * 16 + 4) 0) (SIGMA82.getD (i * 16 + 5) 0)
  let v := B2B_G v m 6 14 22 30 (SIGMA82.getD (i * 16 + 6) 0) (SIGMA82.getD (i * 16 + 7) 0)
  let v := B2B_G v m 0 10 20 30 (SIGMA82.getD (i * 16 + 8) 0) (SIGMA82.getD (i * 16 + 9) 0)
  let v := B2B_G v m 2 12 22 24 (SIGMA82.getD (i * 16 + 10) 0) (SIGMA82.getD (i * 16 + 11) 0)
  let v := B2B_G v m 4 14 16 26 (SIGMA82.getD (i * 16 + 12) 0) (SIGMA82.getD (i * 16 + 13) 0)
  B2B_G v m 6 8 18 28 (SIGMA82.getD (i * 16 + 14) 0) (SIGMA82.getD (i * 16 + 15) 0)

/-- Compression function (`blake2bCompress` in the source), assembled from
the stage functions above exactly as the source's statement blocks.  The
working and message vectors are rebuilt from scratch on every call (the
source instance fields are fully overwritten before use). -/
def blake2bCompress (s : State) (last : Bool) : State :=
  let m := loadM s.b
  let v := (List.range 12).foldl (mixRound m) (initV s.h s.t last)
  { s with h := (List.range 16).map (fun i => s.h.getD i 0 ^^^ v.getD i 0 ^^^ v.getD (i + 16) 0) }

/-- One loop iteration of `blake2bUpdate`: flush a full buffer, then store
the byte at the fill pointer and advance it. -/
def updateByte (s : State) (x : Nat) : State :=
  let s :=
    if s.c = 128 then
      let s := { s with t := s.t + s.c }
      let s := blake2bCompress s false
      { s with c := 0 }
    else s
  { s with b := s.b.set s.c x, c := s.c + 1 }

/-- Streaming update (`blake2bUpdate` in the source): byte-by-byte loop. -/
def blake2bUpdate (s : State) (input : List Nat) : State :=
  input.foldl updateByte s

/-- `TypedArray.prototype.set(src, off)`: overwrite consecutive positions
starting at `off` with the elements of `src`. -/
def setAt (l : List Nat) (off : Nat) : List Nat → List Nat
  | [] => l
  | x :: xs => setAt (l.set off x) (off + 1) xs

/-- The 64-byte parameter block the constructor builds: digest length, key
length, fanout = 1, depth = 1, salt at offset 32, personalization at
offset 48.  `key = some k` models a JS call with a `Uint8Array` argument
(truthy even when empty); `none` models an absent argument. -/
def paramBlock (digestLength : Nat) (key salt personal : Option (List Nat)) : List Nat :=
  let p := List.replicate 64 0
  let p := p.set 0 digestLength
  let p := match key with
    | some k => p.set 1 k.length
    | none => p
  let p := p.set 2 1
  let p := p.set 3 1
  let p := match salt with
    | some sa => setAt p 32 sa
    | none => p
  match personal with
  | some pe => setAt p 48 pe
  | none => p

/-- The constructor: seed `h` from IV XOR parameter block, then, if a key
argument was passed (`if (key)` in JS: any `Uint8Array`, empty included),
absorb the key via `blake2bUpdate` and set the fill pointer to 128. -/
def init (digestLength : Nat) (key salt personal : Option (List Nat)) : State :=
  let p := paramBlock digestLength key salt personal
  let s : State :=
    { h := (List.range 16).map (fun i => IV32.getD i 0 ^^^ GET32 p (i * 4))
      b := List.replicate 128 0
      t := 0
      c := 0
      digestLength := digestLength }
  match key with
  | some k =>
    let s := blake2bUpdate s k
    { s with c := 128 }
  | none => s

/-- Little-endian serialization of the first `n` bytes of the chaining
state (the output loop of `blake2bDigest`).  The source's signed `>>` on a
uint32 value agrees with the unsigned shift modulo 2^8, which is what the
`Uint8Array` store keeps. -/
def hOut (h : List Nat) (n : Nat) : List Nat :=
  (List.range n).map (fun i => (h.getD (i / 4) 0 >>> (8 * (i % 4))) % 256)

/-- Finalization (`blake2bDigest` in the source): add the fill pointer to
the byte counter, zero-fill the buffer from the fill pointer to 128 (the
source's while loop, expressed as a block write of zeros), compress with
the last-block flag, and serialize the first `digestLength` bytes of `h`. -/
def blake2bDigest (s : State) : List Nat :=
  let s := { s with t := s.t + s.c, b := setAt s.b s.c (List.replicate (128 - s.c) 0) }
  let s := blake2bCompress s true
  hOut s.h s.digestLength

/-- Hex digit characters, `0`-`9` then `a`-`f`, as produced by JS
`Number.prototype.toString(16)`. -/
def hexDigit (d : Nat) : Char :=
  if d < 10 then Char.ofNat (48 + d) else Char.ofNat (87 + d)

/-- `toHex` from `util.ts`: two-character, zero-padded hex of a byte (for
byte values, `n.toString(16)` is one digit below 16 and two digits
otherwise). -/
def toHex (n : Nat) : String :=
  if n < 16 then "0" ++ String.mk [hexDigit n]
  else String.mk [hexDigit (n / 16), hexDigit (n % 16)]

/-- `toHexString` from `util.ts`: concatenate the hex of each byte. -/
def toHexString (buf : List Nat) : String :=
  buf.foldl (fun str b => str ++ toHex b) ""

/-- The error relevant to the exactly-once finalization protocol
(spec error taxonomy). -/
inductive B2bError where
  | AlreadyFinalized
  deriving DecidableEq

/-- State of the wasm-backed `Blake2b` class as visible to the
finalize-once protocol: a streaming hash state plus the `finalized` flag. -/
structure Api where
  inner : State
  finalized : Bool

/-- `Blake2b.update` of the wasm-backed class: absorbs the input.  The
source method performs no `finalized` check (the guarded `write` variant
is commented out), so it never fails. -/
def apiUpdate (a : Api) (input : List Nat) : Except B2bError Api :=
  Except.ok { a with inner := blake2bUpdate a.inner input }

/-- `Blake2b.digest` of the wasm-backed class: `assert(!this.finalized)`,
then finalize, returning the digest and marking the instance finalized. -/
def apiDigest (a : Api) : Except B2bError (List Nat × Api) :=
  if a.finalized then Except.error B2bError.AlreadyFinalized
  else Except.ok (blake2bDigest a.inner, { a with finalized := true })

/-- Right rotation of a 64-bit word (the spec's `rotr64`), arithmetic
form: the low `k` bits move to the top. -/
def rotr64 (z k : Nat) : Nat :=
  z % M64 / 2 ^ k + z % M64 % 2 ^ k * 2 ^ (64 - k)

/-- Modelled from the spec (§4.3): the 64-bit G mixing function, eight
sequential assignments on a 16-word state, all arithmetic modulo 2^64. -/
def GSpec64 (w : Nat → Nat) (a b c d : Nat) (x y : Nat) : Nat → Nat :=
  let w := Function.update w a ((w a + w b + x) % M64)
  let w := Function.update w d (rotr64 (w d ^^^ w a) 32)
  let w := Function.update w c ((w c + w d) % M64)
  let w := Function.update w b (rotr64 (w b ^^^ w c) 24)
  let w := Function.update w a ((w a + w b + y) % M64)
  let w := Function.update w d (rotr64 (w d ^^^ w a) 16)
  let w := Function.update w c ((w c + w d) % M64)
  Function.update w b (rotr64 (w b ^^^ w c) 63)

/-- Pairing invariant between a 32-halves working vector and the 16-word
64-bit state it represents: position 2j holds the low half, 2j+1 the high
half of word j. -/
def Pairs (v : List Nat) (w : Nat → Nat) : Prop :=
  v.length = 32 ∧ ∀ j, j < 16 →
    v.getD (2 * j) 0 < M32 ∧ v.getD (2 * j + 1) 0 < M32 ∧
      v.getD (2 * j) 0 + M32 * v.getD (2 * j + 1) 0 = w j

/-- The 11 ASCII bytes of "Hej, Verden". -/
def hejChunk : List Nat := [72, 101, 106, 44, 32, 86, 101, 114, 100, 101, 110]

/-! ## Literal constants of the concretely evaluated instances -/

/-- Initial chaining state of an unkeyed digest-length-64 instance. -/
def h64i : List Nat := [4072524104, 1779033703, 2227873595, 3144134277, 4271175723, 1013904242, 1595750129, 2773480762, 2917565137, 1359893119, 725511199, 2600822924, 4215389547, 528734635, 327033209, 1541459225]

/-- Initial chaining state of an unkeyed digest-length-32 instance (key
length byte 0, so also the initial state after a zero-length key). -/
def h32i : List Nat := [4072524072, 1779033703, 2227873595, 3144134277, 4271175723, 1013904242, 1595750129, 2773480762, 2917565137, 1359893119, 725511199, 2600822924, 4215389547, 528734635, 327033209, 1541459225]

/-- Input block of the `Abc` compression instance. -/
def bAbc : List Nat := [97, 98, 99, 0, 0, 0, 0, 0, 0, 0, 0, 0, 0, 0, 0, 0, 0, 0, 0, 0, 0, 0, 0, 0, 0, 0, 0, 0, 0, 0, 0, 0, 0, 0, 0, 0, 0, 0, 0, 0, 0, 0, 0, 0, 0, 0, 0, 0, 0, 0, 0, 0, 0, 0, 0, 0, 0, 0, 0, 0, 0, 0, 0, 0, 0, 0, 0, 0, 0, 0, 0, 0, 0, 0, 0, 0, 0, 0, 0, 0, 0, 0, 0, 0, 0, 0, 0, 0, 0, 0, 0, 0, 0, 0, 0, 0, 0, 0, 0, 0, 0, 0, 0, 0, 0, 0, 0, 0, 0, 0, 0, 0, 0, 0, 0, 0, 0, 0, 0, 0, 0, 0, 0, 0, 0, 0, 0, 0]

/-- Message words of the `Abc` compression instance. -/
def mAbc : List Nat := [6513249, 0, 0, 0, 0, 0, 0, 0, 0, 0, 0, 0, 0, 0, 0, 0, 0, 0, 0, 0, 0, 0, 0, 0, 0, 0, 0, 0, 0, 0, 0, 0]

/-- Working vector of the `Abc` instance after 0 mixing rounds. -/
def vAbc0 : List Nat := [4072524104, 1779033703, 2227873595, 3144134277, 4271175723, 1013904242, 1595750129, 2773480762, 2917565137, 1359893119, 725511199, 2600822924, 4215389547, 528734635, 327033209, 1541459225, 4089235720, 1779033703, 2227873595, 3144134277, 4271175723, 1013904242, 1595750129, 2773480762, 2917565138, 1359893119, 725511199, 2600822924, 79577748, 3766232660, 327033209, 1541459225]

/-- Working vector of the `Abc` instance after 1 mixing rounds. -/
def vAbc1 : List Nat := [2150218617, 2260189526, 167729651, 3240934600, 3236612750, 3332710732, 1276431453, 210226514, 3179719159, 1156472889, 2859027070, 2756167760, 2982213707, 3725070107, 2712446572, 1499248809, 2125219975, 3200495235, 3751635665, 1650982009, 1945791934, 4203196434, 1675660682, 1377464668, 3100867203, 3761047925, 146264467, 477853007, 3068492030, 2408077942, 557907044, 588816974]

/-- Working vector of the `Abc` instance after 2 mixing rounds. -/
def vAbc2 : List Nat := [2153779442, 1395138179, 4162536339, 898937859, 1658719743, 2362850420, 3662936436, 2247529459, 4085701038, 3131825074, 3327791272, 3394512302, 4042762824, 3332517423, 3414803861, 3332729425, 1763856278, 575564339, 1487481123, 1343099486, 236588360, 3924077837, 1137023604, 2246024641, 1838492543, 2460199594, 2432362579, 3321755408, 1514548688, 713703665, 4258493272, 1462573039]

/-- Working vector of the `Abc` instance after 3 mixing rounds. -/
def vAbc3 : List Nat := [2060719909, 1626183338, 1904216989, 3832181820, 2686391659, 436516163, 2002536567, 2734190958, 3728893930, 3658113468, 1423425006, 2984059655, 2044751124, 631325223, 3288291493, 3867294436, 4085241306, 2707914265, 1991281745, 582864489, 3200326641, 4057892502, 2762068680, 2699810182, 298426281, 3355765675, 2624673683, 2383211669, 2920107401, 2084918655, 803022430, 1902330869]

/-- Working vector of the `Abc` instance after 4 mixing rounds. -/
def vAbc4 : List Nat := [2822251345, 3140122579, 522432771, 1173047191, 1850066564, 2562599295, 3812035465, 2741008350, 2123847946, 2315502795, 3958722208, 605630025, 481504634, 1333971264, 641863108, 2362245431, 2065679892, 2848565489, 2541032608, 1435533703, 1722916135, 1531193150, 2723648295, 3067464188, 3092792190, 140546767, 1841229049, 1548476949, 3981377302, 788455065, 1288828932, 1048272675]

/-- Working vector of the `Abc` instance after 5 mixing rounds. -/
def vAbc5 : List Nat := [3559108761, 3348895155, 2376693078, 765600334, 4056177749, 2010296941, 2739232850, 2301946633, 3512195626, 258842350, 2944975017, 1877369959, 2227677947, 1320204130, 1570064023, 698125938, 3872745427, 2988706649, 239725565, 641974839, 550351278, 2044735215, 3143642937, 1689513687, 2655909437, 3111988547, 692883729, 3340298069, 1999352691, 520655858, 2019131517, 302377546]

/-- Working vector of the `Abc` instance after 6 mixing rounds. -/
def vAbc6 : List Nat := [945532644, 3851392982, 1692013434, 1983949463, 1056843902, 3736389570, 2273561078, 1895232540, 3345643272, 1898433864, 3191714806, 2655464176, 3723958152, 254037090, 2206730306, 563620010, 1015827725, 1103931655, 283065163, 1551438524, 928059106, 2730732477, 715094105, 3411437772, 128718080, 2268297551, 590719599, 3329911780, 1746816130, 2897357608, 1287428136, 3676397920]

/-- Working vector of the `Abc` instance after 7 mixing rounds. -/
def vAbc7 : List Nat := [3940473985, 1848453230, 2280153944, 3169856519, 3707854559, 1473604182, 173870346, 1440258516, 1646314585, 2173965749, 1786158850, 3057403802, 3961468458, 630085088, 236576732, 976965318, 4239411419, 81226163, 3921671389, 3079313971, 3790155968, 1467426602, 3849903094, 1513650249, 3475770108, 2460664583, 4033720234, 816499908, 156207203, 1211667404, 2619785106, 3762056392]

/-- Working vector of the `Abc` instance after 8 mixing rounds. -/
def vAbc8 : List Nat := [1979862273, 4291313358, 2354890233, 468172795, 2890687927, 2740590795, 3633064031, 3082995686, 346359864, 2173926819, 2723420515, 3776419107, 102968207, 975154545, 2878053446, 478076562, 1332239376, 2747454302, 2858522148, 2772254579, 2241998693, 817613826, 2169740893, 3169827690, 4106847370, 943841014, 4222035668, 2556832901, 3584577981, 2002928539, 1137813641, 2964975828]

/-- Working vector of the `Abc` instance after 9 mixing rounds. -/
def vAbc9 : List Nat := [3908758237, 1966764193, 740677161, 1796031434, 3108998155, 4164172712, 230018869, 3162310187, 2981018695, 1481903841, 220810425, 1673902520, 2905071293, 1225289964, 1718781950, 2997423583, 4009416956, 829213163, 34940580, 1246129101, 2364298857, 1571288931, 668141308, 3653796455, 1003988279, 2297261135, 3748130854, 430860429, 3020914285, 1300694954, 2281612529, 4248786726]

/-- Working vector of the `Abc` instance after 10 mixing rounds. -/
def vAbc10 : List Nat := [3436551247, 3861956423, 309686730, 3161537857, 620908664, 1188763696, 1616970048, 1730668562, 2888469690, 755243102, 2420135660, 1597053832, 153098923, 1086140720, 707403435, 10081528, 3730839133, 1842674625, 3821560432, 3014702365, 591071461, 2416635439, 2060474584, 2691799512, 1030846546, 745219417, 468362744, 938003015, 284116055, 754719660, 2269570933, 20356801]

/-- Working vector of the `Abc` instance after 11 mixing rounds. -/
def vAbc11 : List Nat := [2540226400, 3892442939, 549343517, 902222371, 1332037982, 812590936, 4117342075, 3038213805, 1762343988, 4109483654, 3511115339, 1019774773, 536308041, 1571579794, 2909850702, 484154673, 2625500232, 901395786, 1450825534, 1227475940, 613366235, 1933384215, 1868502794, 2463464307, 491328409, 1639301284, 2115142730, 3049468741, 282122377, 3177802720, 2441076925, 35855898]

/-- Working vector of the `Abc` instance after 12 mixing rounds. -/
def vAbc12 : List Nat := [516224726, 317688420, 2009725685, 3169672681, 3306456633, 1933354102, 101775100, 2547997035, 2597695399, 4096530001, 2383431294, 2858074504, 2769782771, 561877770, 2656516418, 2422894577, 3554459428, 1974169755, 1167358628, 4001161715, 800022366, 4170583404, 917951046, 3811726218, 251046411, 2287726340, 2080077987, 2761136705, 4141672832, 1684847482, 1622096770, 3893600828]

/-- Chaining state of the `Abc` instance after compression. -/
def hAbco : List Nat := [1067811002, 223157400, 3063359338, 3925217951, 338633036, 3083098728, 1874530891, 3517120475, 969246589, 762948394, 3738522306, 2513187653, 2827670296, 1519579611, 3984991161, 597229780]

/-- Input block of the `Hej` compression instance. -/
def bHej : List Nat := [72, 101, 106, 44, 32, 86, 101, 114, 100, 101, 110, 72, 101, 106, 44, 32, 86, 101, 114, 100, 101, 110, 72, 101, 106, 44, 32, 86, 101, 114, 100, 101, 110, 72, 101, 106, 44, 32, 86, 101, 114, 100, 101, 110, 72, 101, 106, 44, 32, 86, 101, 114, 100, 101, 110, 72, 101, 106, 44, 32, 86, 101, 114, 100, 101, 110, 72, 101, 106, 44, 32, 86, 101, 114, 100, 101, 110, 72, 101, 106, 44, 32, 86, 101, 114, 100, 101, 110, 72, 101, 106, 44, 32, 86, 101, 114, 100, 101, 110, 72, 101, 106, 44, 32, 86, 101, 114, 100, 101, 110, 0, 0, 0, 0, 0, 0, 0, 0, 0, 0, 0, 0, 0, 0, 0, 0, 0, 0]

/-- Message words of the `Hej` compression instance. -/
def mHej : List Nat := [745170248, 1919243808, 1215194468, 539781733, 1685218646, 1699245669, 1444949098, 1701081701, 1785022574, 1700143148, 1852138610, 745170248, 1919243808, 1215194468, 539781733, 1685218646, 1699245669, 1444949098, 1701081701, 1785022574, 1700143148, 1852138610, 745170248, 1919243808, 1215194468, 539781733, 1685218646, 28261, 0, 0, 0, 0]

/-- Working vector of the `Hej` instance after 0 mixing rounds. -/
def vHej0 : List Nat := [4072524072, 1779033703, 2227873595, 3144134277, 4271175723, 1013904242, 1595750129, 2773480762, 2917565137, 1359893119, 725511199, 2600822924, 4215389547, 528734635, 327033209, 1541459225, 4089235720, 1779033703, 2227873595, 3144134277, 4271175723, 1013904242, 1595750129, 2773480762, 2917565119, 1359893119, 725511199, 2600822924, 79577748, 3766232660, 327033209, 1541459225]

/-- Working vector of the `Hej` instance after 1 mixing rounds. -/
def vHej1 : List Nat := [718209232, 5508569, 748079836, 2948783592, 3756875650, 3226102843, 2151347914, 2736730008, 719468515, 848421273, 3502346885, 222283877, 3175121746, 3221021314, 1836439650, 1667726754, 1466333158, 3655447668, 3077871186, 2905887568, 2171519871, 3096579090, 381524812, 3802874607, 988889444, 3722669883, 110737481, 4108708933, 763375325, 1803695533, 2835208912, 3136725045]

/-- Working vector of the `Hej` instance after 2 mixing rounds. -/
def vHej2 : List Nat := [1222242064, 3112192467, 2532200228, 783984456, 554418495, 4167205178, 1310253184, 3139133867, 4054203427, 2912575558, 2508544425, 3632316336, 2920369805, 1104565758, 1889373508, 515935828, 3760905857, 2322937299, 3610614909, 1564422562, 3862395069, 3726452932, 3373724259, 1923186021, 2989543371, 4046971728, 1569637244, 1614465911, 2346250148, 3938831464, 4046781402, 3558539364]

/-- Working vector of the `Hej` instance after 3 mixing rounds. -/
def vHej3 : List Nat := [3052898120, 1687191179, 1860982468, 2572620845, 923104556, 1370777901, 3238486518, 686916214, 1728522975, 3134838040, 3919239512, 2950407373, 2690160493, 4255035171, 3757030577, 3514429597, 1785752823, 1063768000, 687098387, 2072243371, 3210998757, 1827807525, 1292084279, 630556467, 2408659410, 681929767, 3219439748, 717603626, 2006603314, 3499974397, 2473777628, 1741390212]

/-- Working vector of the `Hej` instance after 4 mixing rounds. -/
def vHej4 : List Nat := [2432904870, 2932337120, 1928194406, 609635222, 266894424, 1832459064, 2992730614, 4212729627, 2232050548, 3159869965, 655615186, 1064026025, 3901484397, 2481554724, 1424629425, 1257982277, 303820184, 2186887764, 3694635984, 3454719274, 1555527699, 274751013, 3280404601, 3209567683, 2821394277, 2275629165, 3094877730, 529809629, 4141253455, 786611394, 847573057, 740205612]

/-- Working vector of the `Hej` instance after 5 mixing rounds. -/
def vHej5 : List Nat := [3395262835, 3050551703, 3310422985, 366451398, 1635067382, 3092931049, 353820305, 516996987, 3941515814, 1383861251, 2518295742, 3512277478, 2555495232, 3285578414, 3859035456, 1281515698, 2431273802, 4286003777, 3293184517, 976345679, 3456531597, 2032412834, 2322680978, 2596283326, 3165738568, 473610275, 19885711, 1314408841, 2712459264, 2532212987, 276168028, 3579811726]

/-- Working vector of the `Hej` instance after 6 mixing rounds. -/
def vHej6 : List Nat := [2797266677, 869628719, 3706001396, 3284142733, 1143821482, 46440273, 1867498938, 1522992427, 3911634712, 1175963753, 3326197874, 4086899921, 1189400100, 1319081621, 617765289, 3147672408, 1242348347, 3736731778, 3709820281, 3426217073, 1396141163, 3420486128, 1585973555, 882640019, 3376595581, 2285358270, 3727666553, 4211254129, 64554893, 3341860221, 4046042396, 387480011]

/-- Working vector of the `Hej` instance after 7 mixing rounds. -/
def vHej7 : List Nat := [3663794468, 642193030, 2915196953, 122053519, 1223706923, 2588176691, 2110342343, 724050697, 1486202112, 256300964, 956140044, 736193319, 385894420, 3025977790, 3431419928, 1523649111, 4143805871, 1928100653, 774083083, 2936715955, 4267952170, 2239336112, 2539501149, 891971895, 4047411655, 1914507903, 225023403, 3331010559, 136825753, 4145776376, 3639509666, 2341263551]

/-- Working vector of the `Hej` instance after 8 mixing rounds. -/
def vHej8 : List Nat := [3148882459, 4132370382, 3999702962, 675196655, 2084521365, 3049193173, 1737932712, 866928917, 1619982130, 177824854, 1841055456, 1450072588, 1525554680, 3612583376, 2835373119, 2016149945, 3482816531, 1491116087, 1690444265, 1626710154, 79829932, 3224801475, 2180619834, 3834489498, 3892265829, 1121987703, 3914377285, 3596074947, 186159651, 91584352, 194301132, 1176264608]

/-- Working vector of the `Hej` instance after 9 mixing rounds. -/
def vHej9 : List Nat := [3317805074, 369825813, 54545328, 2113569526, 837039026, 925652710, 1389788205, 3544486698, 2722500751, 2498191113, 2792102651, 4207063561, 913407014, 3471856965, 2097091653, 1200667993, 4235865071, 2232171678, 284600943, 4083976222, 3712182894, 2272659504, 1727938730, 2771241309, 1520328868, 313217516, 2086136477, 3153454376, 3971869736, 4252286051, 316586018, 1323600525]

/-- Working vector of the `Hej` instance after 10 mixing rounds. -/
def vHej10 : List Nat := [1205609605, 1260449667, 200434488, 2363183262, 494219066, 1329869442, 3382372354, 699640881, 374125859, 1801992318, 559997205, 1198889442, 2365407448, 1625738102, 114734004, 2241916840, 4030034142, 3376145940, 279639242, 3363722166, 1205699957, 544764155, 4121884460, 1537570115, 170452807, 1679391215, 2713159045, 3433389394, 2936483420, 2345972494, 2970304936, 1888595662]

/-- Working vector of the `Hej` instance after 11 mixing rounds. -/
def vHej11 : List Nat := [1961765467, 2925013928, 3602676239, 120382661, 3595173481, 3935166561, 860301339, 387883692, 1346286871, 582864095, 244687738, 2625288731, 3852149875, 4120166026, 380671831, 1138929124, 3185550456, 2075736254, 1790971369, 2086084797, 8801242, 1798137403, 2880008199, 1193897265, 3895611881, 258767327, 3520190090, 3903659502, 3746105892, 1481575823, 934806346, 1120900805]

/-- Working vector of the `Hej` instance after 12 mixing rounds. -/
def vHej12 : List Nat := [3801947580, 148212517, 3506975722, 1357136168, 2459844417, 2187600005, 1200234986, 137562840, 1944364643, 2802590361, 1792898751, 3755364149, 3944702307, 1922599229, 1151042236, 234618207, 607065695, 1428303933, 1239516941, 2770964754, 844253614, 3601040951, 4001670434, 2914133961, 3000894375, 3600067441, 1097010893, 2844425449, 3847242102, 3647230711, 1837414262, 2432874843]

/-- Chaining state of the `Hej` instance after compression. -/
def hHejo : List Nat := [873448139, 939416959, 472060892, 1319796415, 1582862020, 1755928000, 4128485945, 13555755, 1826367253, 546757527, 8393837, 3982056272, 4111375742, 3028222561, 979440819, 3340339485]

/-- Input block of the `Key0` compression instance. -/
def bKey0 : List Nat := [0, 0, 0, 0, 0, 0, 0, 0, 0, 0, 0, 0, 0, 0, 0, 0, 0, 0, 0, 0, 0, 0, 0, 0, 0, 0, 0, 0, 0, 0, 0, 0, 0, 0, 0, 0, 0, 0, 0, 0, 0, 0, 0, 0, 0, 0, 0, 0, 0, 0, 0, 0, 0, 0, 0, 0, 0, 0, 0, 0, 0, 0, 0, 0, 0, 0, 0, 0, 0, 0, 0, 0, 0, 0, 0, 0, 0, 0, 0, 0, 0, 0, 0, 0, 0, 0, 0, 0, 0, 0, 0, 0, 0, 0, 0, 0, 0, 0, 0, 0, 0, 0, 0, 0, 0, 0, 0, 0, 0, 0, 0, 0, 0, 0, 0, 0, 0, 0, 0, 0, 0, 0, 0, 0, 0, 0, 0, 0]

/-- Message words of the `Key0` compression instance. -/
def mKey0 : List Nat := [0, 0, 0, 0, 0, 0, 0, 0, 0, 0, 0, 0, 0, 0, 0, 0, 0, 0, 0, 0, 0, 0, 0, 0, 0, 0, 0, 0, 0, 0, 0, 0]

/-- Working vector of the `Key0` instance after 0 mixing rounds. -/
def vKey00 : List Nat := [4072524072, 1779033703, 2227873595, 3144134277, 4271175723, 1013904242, 1595750129, 2773480762, 2917565137, 1359893119, 725511199, 2600822924, 4215389547, 528734635, 327033209, 1541459225, 4089235720, 1779033703, 2227873595, 3144134277, 4271175723, 1013904242, 1595750129, 2773480762, 2917565009, 1359893119, 725511199, 2600822924, 79577748, 3766232660, 327033209, 1541459225]

/-- Working vector of the `Key0` instance after 1 mixing rounds. -/
def vKey01 : List Nat := [2953567224, 2260196267, 144777037, 606805357, 3775227763, 3360051709, 2363914883, 1506236506, 2959087635, 899456717, 2772364366, 3554092678, 1742123034, 3154522316, 148600942, 1967186326, 3405317281, 2930725699, 3846382822, 1455543632, 2884386214, 3243245011, 2320101124, 2116013840, 2092555614, 2804943216, 2013720700, 2978380716, 4232739276, 2275347187, 1496501318, 1134513548]

/-- Working vector of the `Key0` instance after 2 mixing rounds. -/
def vKey02 : List Nat := [1773946632, 956408750, 985398325, 1949182766, 2366044972, 2883967972, 2094894059, 2659185215, 3894791366, 456783695, 347939324, 1142823447, 1182875464, 2508798456, 3782490273, 1002707572, 370852313, 3037402423, 2716254651, 701293257, 994733950, 1343520602, 3155393966, 1055409412, 1412366546, 1209463396, 2719284611, 481180055, 3167190686, 175021635, 2166327849, 3011745599]

/-- Working vector of the `Key0` instance after 3 mixing rounds. -/
def vKey03 : List Nat := [202777363, 1323000745, 317749041, 473411734, 4135573009, 1804057091, 1431885586, 3341573091, 3255004844, 4268441065, 2085721438, 2295351991, 3584644345, 3760520189, 301883248, 2716860781, 4205701634, 1040935842, 902238702, 1088140725, 3828146320, 3757637694, 264699543, 4062669270, 3174846656, 749957717, 2061762490, 1509472896, 2654842573, 2228185171, 2724300679, 1266357941]

/-- Working vector of the `Key0` instance after 4 mixing rounds. -/
def vKey04 : List Nat := [637230654, 3540195975, 4186522118, 2096790622, 2196320699, 2372150576, 2994925370, 1528857437, 1632506720, 2372790673, 608393893, 1745873887, 476621678, 3978616086, 3391260761, 33929792, 557506506, 1807466577, 281764760, 2768981843, 3190669410, 3763344948, 1350993438, 1860526103, 1541149584, 3002802609, 1899891026, 4285243872, 1015758274, 4286192930, 3701275664, 2492658319]

/-- Working vector of the `Key0` instance after 5 mixing rounds. -/
def vKey05 : List Nat := [1070571259, 4281065472, 98168459, 2901311161, 1426343039, 388856763, 117423982, 3855267431, 2565339825, 1891442669, 3151390195, 3414186786, 513281126, 3772143503, 1189283648, 2195418177, 3058883609, 2935738747, 135477843, 2559632058, 2031324341, 45675785, 2049721477, 3603515748, 3287508492, 3314338116, 2328335607, 1869579916, 1720438502, 2538859792, 1592570894, 1319755221]

/-- Working vector of the `Key0` instance after 6 mixing rounds. -/
def vKey06 : List Nat := [856637973, 401016904, 1939733510, 2032360316, 2573971987, 4260926674, 2636633183, 2792952876, 1310584214, 628798226, 1170319674, 194548895, 1460449250, 3806549359, 2076373175, 1604665325, 359312083, 2868522361, 949960153, 3187452042, 2236308510, 1037912655, 2780047776, 1006609027, 1512824837, 1960546368, 384862417, 541982373, 139559057, 296384685, 3446021936, 515509047]

/-- Working vector of the `Key0` instance after 7 mixing rounds. -/
def vKey07 : List Nat := [1610616779, 1527510120, 2732297792, 279538502, 1547351194, 2994584042, 1256935041, 917373639, 2202337572, 961805759, 3431845737, 1838981534, 1860600876, 746197609, 1377448656, 2157307049, 645214519, 2065776099, 99436981, 2692640591, 2163240348, 3595545119, 2900789008, 2629426302, 280849241, 3055578815, 2105871437, 682020527, 2719718599, 1451393607, 725732479, 2202416652]

/-- Working vector of the `Key0` instance after 8 mixing rounds. -/
def vKey08 : List Nat := [1499004994, 3140468448, 135280652, 2374050019, 2883222954, 443290825, 3064770930, 1526745596, 2166517072, 2993470798, 4218039290, 2884009903, 16180015, 2580780515, 1637441784, 3371320269, 1577020071, 2659145790, 561578746, 205956069, 1191687915, 2738743311, 3614289539, 1670723669, 2012052790, 2749799344, 2234270412, 935089898, 131365914, 4140155810, 3743140678, 4239338724]

/-- Working vector of the `Key0` instance after 9 mixing rounds. -/
def vKey09 : List Nat := [1407912837, 1889654913, 1134450628, 45367467, 2427453584, 3787233833, 573556993, 3062091432, 3039559312, 1844069698, 1316967813, 652491464, 1979005208, 2154688947, 3051192821, 2263377797, 301890064, 2089890217, 8330318, 700141567, 1417850924, 3773160299, 4014410288, 1339460606, 461917676, 4060769757, 2944082895, 1765878565, 1422610039, 2859592832, 4006833550, 2827525644]

/-- Working vector of the `Key0` instance after 10 mixing rounds. -/
def vKey010 : List Nat := [638285157, 930827196, 4212717365, 1827764286, 2645679629, 1327486151, 1327048786, 798470272, 2159228941, 3108542341, 563263426, 177536119, 1360646778, 1922622960, 3589176138, 934852207, 1246450824, 4251592436, 819962951, 828301193, 2233377342, 948823841, 225756623, 3964463070, 2108225105, 2333223310, 3103743958, 3837370841, 3363986376, 3947961162, 2436647615, 3263617566]

/-- Working vector of the `Key0` instance after 11 mixing rounds. -/
def vKey011 : List Nat := [70570661, 1487084309, 2209719267, 669033722, 1487517748, 135864601, 1377357086, 410561387, 1629713187, 1995434562, 466351081, 547257246, 3827957660, 2172476402, 3139629149, 4014906521, 3102291077, 2820040480, 50976633, 4177187547, 2425002504, 3828019018, 1388813488, 1680474967, 4053431689, 273818498, 2591533437, 4002997148, 3786872422, 3144160851, 2231717605, 593201602]

/-- Working vector of the `Key0` instance after 12 mixing rounds. -/
def vKey012 : List Nat := [1929113656, 1687457928, 3283375001, 3134531606, 3618978472, 303262363, 637372678, 451801035, 2903844611, 1555579829, 731014823, 1004622080, 4113965703, 543480362, 2172244770, 1987386119, 709538855, 4291317317, 2263708177, 1320315205, 893966930, 4196683900, 2897221144, 2119558695, 658264013, 50534844, 509998063, 459437419, 1440603818, 3654817411, 2156225988, 2717890424]

/-- Chaining state of the `Key0` instance after compression. -/
def hKey0o : List Nat := [2852949303, 4048894122, 3247670963, 1325461462, 476649681, 3562654101, 3595610607, 3254254806, 667937311, 246745206, 516553047, 3146140903, 1537884486, 3862893826, 310548383, 2355781990]

/-- Input block of the `Unkey` compression instance. -/
def bUnkey : List Nat := [0, 0, 0, 0, 0, 0, 0, 0, 0, 0, 0, 0, 0, 0, 0, 0, 0, 0, 0, 0, 0, 0, 0, 0, 0, 0, 0, 0, 0, 0, 0, 0, 0, 0, 0, 0, 0, 0, 0, 0, 0, 0, 0, 0, 0, 0, 0, 0, 0, 0, 0, 0, 0, 0, 0, 0, 0, 0, 0, 0, 0, 0, 0, 0, 0, 0, 0, 0, 0, 0, 0, 0, 0, 0, 0, 0, 0, 0, 0, 0, 0, 0, 0, 0, 0, 0, 0, 0, 0, 0, 0, 0, 0, 0, 0, 0, 0, 0, 0, 0, 0, 0, 0, 0, 0, 0, 0, 0, 0, 0, 0, 0, 0, 0, 0, 0, 0, 0, 0, 0, 0, 0, 0, 0, 0, 0, 0, 0]

/-- Message words of the `Unkey` compression instance. -/
def mUnkey : List Nat := [0, 0, 0, 0, 0, 0, 0, 0, 0, 0, 0, 0, 0, 0, 0, 0, 0, 0, 0, 0, 0, 0, 0, 0, 0, 0, 0, 0, 0, 0, 0, 0]

/-- Working vector of the `Unkey` instance after 0 mixing rounds. -/
def vUnkey0 : List Nat := [4072524072, 1779033703, 2227873595, 3144134277, 4271175723, 1013904242, 1595750129, 2773480762, 2917565137, 1359893119, 725511199, 2600822924, 4215389547, 528734635, 327033209, 1541459225, 4089235720, 1779033703, 2227873595, 3144134277, 4271175723, 1013904242, 1595750129, 2773480762, 2917565137, 1359893119, 725511199, 2600822924, 79577748, 3766232660, 327033209, 1541459225]

/-- Working vector of the `Unkey` instance after 1 mixing rounds. -/
def vUnkey1 : List Nat := [2091342840, 2260196267, 2292257997, 606805357, 3775194995, 1212579197, 817734473, 2160070743, 4092084411, 3031667074, 3694162839, 3541968625, 1730053915, 1208365494, 3503978657, 1967209366, 2801337542, 2930758339, 2642899377, 693214195, 736850506, 1093369320, 170782468, 2216677292, 2090720606, 2897218032, 1418129533, 830929836, 3029255575, 1565905101, 3643932906, 3281997216]

/-- Working vector of the `Unkey` instance after 2 mixing rounds. -/
def vUnkey2 : List Nat := [3791143010, 3291944199, 1426189776, 3185973637, 2835046774, 2760406196, 653158119, 828605343, 3253057731, 1425580446, 1832053048, 1677222117, 1106721847, 1014894384, 2063033707, 1486021563, 371304776, 3550774981, 3266439923, 700282581, 3463903919, 1427183217, 1665601244, 3717944330, 826514206, 1403347314, 3943085710, 1915836122, 1508889241, 1829509499, 417328678, 1883474216]

/-- Working vector of the `Unkey` instance after 3 mixing rounds. -/
def vUnkey3 : List Nat := [3878821207, 1858082207, 3087827113, 1298881901, 2701691473, 2566449537, 1150330093, 4033871281, 2150271456, 4132184249, 3936339921, 4252090121, 162453719, 421133902, 3231118710, 3499821171, 777697454, 1794398794, 1436399954, 120550062, 3148918844, 740457813, 541349570, 2242060240, 264354853, 203958768, 2881456900, 498286099, 3987577249, 3672239429, 3436315933, 1127045550]

/-- Working vector of the `Unkey` instance after 4 mixing rounds. -/
def vUnkey4 : List Nat := [4106037639, 1463266655, 1818074175, 3711329729, 2232363909, 921325074, 1157557033, 4187603364, 2549154105, 3717072868, 138002714, 1039691785, 769489502, 165599611, 1854742241, 4266843149, 133149074, 3741604779, 3511996908, 993959069, 2797028865, 454218733, 3951229689, 4224807859, 473834050, 189646250, 552262679, 3825968533, 4289632641, 829640827, 2774281659, 2622118812]

/-- Working vector of the `Unkey` instance after 5 mixing rounds. -/
def vUnkey5 : List Nat := [3101067628, 2455753583, 4101871421, 402836544, 1587714108, 734523449, 3775141788, 161926414, 1788977949, 2593147501, 2633770456, 646170026, 380091602, 1344611179, 780113397, 2368906892, 1553019674, 2953709865, 2118217289, 3207606896, 3795823513, 3227685001, 2522864076, 1515906442, 3678524857, 3796216071, 675666172, 121216774, 3587494084, 42397913, 3522016132, 1650711780]

/-- Working vector of the `Unkey` instance after 6 mixing rounds. -/
def vUnkey6 : List Nat := [257881512, 3374250247, 1766867968, 1754082370, 1626500767, 2754122928, 313108898, 1559818945, 775235381, 174913134, 3060143933, 4184126260, 3481724022, 3828501337, 754050959, 2293010583, 3137692308, 1102890379, 889120897, 3053243123, 1989676535, 3791934634, 867729603, 4154101788, 1212112201, 3734831718, 4036280344, 3951850239, 1012025761, 3252740130, 3920285823, 1004930281]

/-- Working vector of the `Unkey` instance after 7 mixing rounds. -/
def vUnkey7 : List Nat := [1138310742, 4096428563, 1490978323, 4032572108, 3381114200, 3761753743, 951277946, 601257765, 595243778, 1901452600, 512449501, 1406720187, 3346288805, 39749274, 2497981656, 2594015534, 1153398457, 2502338672, 1657845717, 4077526430, 356596296, 3853517097, 4229758056, 3144319015, 3565587736, 1747815117, 2348475526, 1201787515, 405027466, 2352395571, 1413344968, 124543533]

/-- Working vector of the `Unkey` instance after 8 mixing rounds. -/
def vUnkey8 : List Nat := [3728398823, 1345679874, 1387040892, 1830155922, 76495317, 891224902, 4117910357, 2575366519, 3716832250, 2905537003, 4113743562, 2232901843, 1819396458, 3847768335, 860853747, 3325178379, 134773054, 2962194216, 1982325752, 586572490, 2863845324, 1469997372, 721823920, 2048579684, 772121277, 2807038141, 1002022291, 1801016053, 1967484981, 2018829295, 3571316008, 1862699395]

/-- Working vector of the `Unkey` instance after 9 mixing rounds. -/
def vUnkey9 : List Nat := [1544561051, 3778051211, 2827848500, 1032911892, 2459802128, 715406825, 2931505487, 3818621598, 522805753, 1880325004, 4059320609, 1337484327, 3883056644, 1986944431, 2857210101, 2682016814, 2588423453, 1357540376, 3343817662, 4288268695, 1901741720, 702777708, 3457456815, 3921172899, 1494420863, 779556809, 2855854033, 2318113759, 3442398869, 3915992164, 3525645392, 1218330636]

/-- Working vector of the `Unkey` instance after 10 mixing rounds. -/
def vUnkey10 : List Nat := [3216752382, 1803608211, 2676973280, 1864504048, 3945704045, 288449189, 2772009414, 2656422946, 3480653994, 2649604691, 4212491970, 737349486, 268389541, 747409725, 2002638539, 1194234547, 4243385099, 3900964929, 441877604, 772638519, 4226917595, 203817641, 1899482665, 296399557, 421240062, 3252073237, 1226034759, 1347834341, 4153857516, 357079727, 4015132844, 1502079084]

/-- Working vector of the `Unkey` instance after 11 mixing rounds. -/
def vUnkey11 : List Nat := [1429071806, 3635363347, 2077397416, 2244452205, 2221456586, 822958667, 1277133517, 327215324, 1533968245, 3273642050, 4032621242, 4149583589, 2833742544, 1605226835, 2618266168, 2661536874, 4017310226, 3233040575, 2731271750, 4046101715, 2489021202, 3556475651, 2329165527, 3185274525, 2507703080, 3311579504, 2060779829, 4281206421, 1747892, 2879327435, 1031723809, 2920087346]

/-- Working vector of the `Unkey` instance after 12 mixing rounds. -/
def vUnkey12 : List Nat := [932354468, 1212640457, 3487805439, 1166463501, 1861638209, 67570333, 3096003254, 588070320, 2263093421, 3952148103, 646639340, 1153190361, 435482893, 4089094409, 4150416059, 993789877, 92145538, 2416799624, 4211581740, 1597761000, 3619505595, 3206444696, 718397373, 782362491, 3019710084, 2068895838, 2105076597, 4058250277, 2293661125, 3848462030, 1629560542, 4086908077]

/-- Chaining state of the `Unkey` instance after compression. -/
def hUnkeyo : List Nat := [3226556174, 2990794022, 2955848680, 2715457888, 1205855697, 2272759671, 3443895290, 2833461233, 2566884600, 3251532966, 1892444550, 777706864, 1778594211, 157001324, 2235395356, 2470809089]

/-! ## Evaluation lemmas for the concrete instances -/

/-- Message-word load of the `Abc` compression instance. -/
lemma loadM_Abc : loadM bAbc = mAbc := by decide

/-- Working-vector initialization of the `Abc` compression instance. -/
lemma initV_Abc : initV h64i 3 true = vAbc0 := by decide

-- Mixing round 0 of the `Abc` compression instance.
set_option maxRecDepth 4000 in
lemma round_Abc_0 : mixRound mAbc vAbc0 0 = vAbc1 := by decide

-- Mixing round 1 of the `Abc` compression instance.
set_option maxRecDepth 4000 in
lemma round_Abc_1 : mixRound mAbc vAbc1 1 = vAbc2 := by decide

-- Mixing round 2 of the `Abc` compression instance.
set_option maxRecDepth 4000 in
lemma round_Abc_2 : mixRound mAbc vAbc2 2 = vAbc3 := by decide

-- Mixing round 3 of the `Abc` compression instance.
set_option maxRecDepth 4000 in
lemma round_Abc_3 : mixRound mAbc vAbc3 3 = vAbc4 := by decide

-- Mixing round 4 of the `Abc` compression instance.
set_option maxRecDepth 4000 in
lemma round_Abc_4 : mixRound mAbc vAbc4 4 = vAbc5 := by decide

-- Mixing round 5 of the `Abc` compression instance.
set_option maxRecDepth 4000 in
lemma round_Abc_5 : mixRound mAbc vAbc5 5 = vAbc6 := by decide

-- Mixing round 6 of the `Abc` compression instance.
set_option maxRecDepth 4000 in
lemma round_Abc_6 : mixRound mAbc vAbc6 6 = vAbc7 := by decide

-- Mixing round 7 of the `Abc` compression instance.
set_option maxRecDepth 4000 in
lemma round_Abc_7 : mixRound mAbc vAbc7 7 = vAbc8 := by decide

-- Mixing round 8 of the `Abc` compression instance.
set_option maxRecDepth 4000 in
lemma round_Abc_8 : mixRound mAbc vAbc8 8 = vAbc9 := by decide

-- Mixing round 9 of the `Abc` compression instance.
set_option maxRecDepth 4000 in
lemma round_Abc_9 : mixRound mAbc vAbc9 9 = vAbc10 := by decide

-- Mixing round 10 of the `Abc` compression instance.
set_option maxRecDepth 4000 in
lemma round_Abc_10 : mixRound mAbc vAbc10 10 = vAbc11 := by decide

-- Mixing round 11 of the `Abc` compression instance.
set_option maxRecDepth 4000 in
lemma round_Abc_11 : mixRound mAbc vAbc11 11 = vAbc12 := by decide

/-- The twelve mixing rounds of the `Abc` compression instance. -/
lemma fold_Abc : (List.range 12).foldl (mixRound mAbc) vAbc0 = vAbc12 := by
  rw [show List.range 12 = [0, 1, 2, 3, 4, 5, 6, 7, 8, 9, 10, 11] from rfl]
  simp only [List.foldl_cons, List.foldl_nil]
  rw [round_Abc_0, round_Abc_1, round_Abc_2, round_Abc_3, round_Abc_4, round_Abc_5, round_Abc_6, round_Abc_7, round_Abc_8, round_Abc_9, round_Abc_10, round_Abc_11]

/-- Full compression of the `Abc` instance, for any fill pointer and
digest length (the compression function touches neither). -/
lemma compress_Abc (c dl : Nat) :
    blake2bCompress ⟨h64i, bAbc, 3, c, dl⟩ true = ⟨hAbco, bAbc, 3, c, dl⟩ := by
  show (⟨(List.range 16).map (fun i => ((h64i : List Nat)).getD i 0 ^^^
      ((List.range 12).foldl (mixRound (loadM bAbc)) (initV h64i 3 true)).getD i 0 ^^^
      ((List.range 12).foldl (mixRound (loadM bAbc)) (initV h64i 3 true)).getD (i + 16) 0),
      bAbc, 3, c, dl⟩ : State) = ⟨hAbco, bAbc, 3, c, dl⟩
  rw [loadM_Abc, initV_Abc, fold_Abc]
  exact congrArg (fun x => State.mk x bAbc 3 c dl) (by decide)

/-- Message-word load of the `Hej` compression instance. -/
lemma loadM_Hej : loadM bHej = mHej := by decide

/-- Working-vector initialization of the `Hej` compression instance. -/
lemma initV_Hej : initV h32i 110 true = vHej0 := by decide

-- Mixing round 0 of the `Hej` compression instance.
set_option maxRecDepth 4000 in
lemma round_Hej_0 : mixRound mHej vHej0 0 = vHej1 := by decide

-- Mixing round 1 of the `Hej` compression instance.
set_option maxRecDepth 4000 in
lemma round_Hej_1 : mixRound mHej vHej1 1 = vHej2 := by decide

-- Mixing round 2 of the `Hej` compression instance.
set_option maxRecDepth 4000 in
lemma round_Hej_2 : mixRound mHej vHej2 2 = vHej3 := by decide

-- Mixing round 3 of the `Hej` compression instance.
set_option maxRecDepth 4000 in
lemma round_Hej_3 : mixRound mHej vHej3 3 = vHej4 := by decide

-- Mixing round 4 of the `Hej` compression instance.
set_option maxRecDepth 4000 in
lemma round_Hej_4 : mixRound mHej vHej4 4 = vHej5 := by decide

-- Mixing round 5 of the `Hej` compression instance.
set_option maxRecDepth 4000 in
lemma round_Hej_5 : mixRound mHej vHej5 5 = vHej6 := by decide

-- Mixing round 6 of the `Hej` compression instance.
set_option maxRecDepth 4000 in
lemma round_Hej_6 : mixRound mHej vHej6 6 = vHej7 := by decide

-- Mixing round 7 of the `Hej` compression instance.
set_option maxRecDepth 4000 in
lemma round_Hej_7 : mixRound mHej vHej7 7 = vHej8 := by decide

-- Mixing round 8 of the `Hej` compression instance.
set_option maxRecDepth 4000 in
lemma round_Hej_8 : mixRound mHej vHej8 8 = vHej9 := by decide

-- Mixing round 9 of the `Hej` compression instance.
set_option maxRecDepth 4000 in
lemma round_Hej_9 : mixRound mHej vHej9 9 = vHej10 := by decide

-- Mixing round 10 of the `Hej` compression instance.
set_option maxRecDepth 4000 in
lemma round_Hej_10 : mixRound mHej vHej10 10 = vHej11 := by decide

-- Mixing round 11 of the `Hej` compression instance.
set_option maxRecDepth 4000 in
lemma round_Hej_11 : mixRound mHej vHej11 11 = vHej12 := by decide

/-- The twelve mixing rounds of the `Hej` compression instance. -/
lemma fold_Hej : (List.range 12).foldl (mixRound mHej) vHej0 = vHej12 := by
  rw [show List.range 12 = [0, 1, 2, 3, 4, 5, 6, 7, 8, 9, 10, 11] from rfl]
  simp only [List.foldl_cons, List.foldl_nil]
  rw [round_Hej_0, round_Hej_1, round_Hej_2, round_Hej_3, round_Hej_4, round_Hej_5, round_Hej_6, round_Hej_7, round_Hej_8, round_Hej_9, round_Hej_10, round_Hej_11]

/-- Full compression of the `Hej` instance, for any fill pointer and
digest length (the compression function touches neither). -/
lemma compress_Hej (c dl : Nat) :
    blake2bCompress ⟨h32i, bHej, 110, c, dl⟩ true = ⟨hHejo, bHej, 110, c, dl⟩ := by
  show (⟨(List.range 16).map (fun i => ((h32i : List Nat)).getD i 0 ^^^
      ((List.range 12).foldl (mixRound (loadM bHej)) (initV h32i 110 true)).getD i 0 ^^^
      ((List.range 12).foldl (mixRound (loadM bHej)) (initV h32i 110 true)).getD (i + 16) 0),
      bHej, 110, c, dl⟩ : State) = ⟨hHejo, bHej, 110, c, dl⟩
  rw [loadM_Hej, initV_Hej, fold_Hej]
  exact congrArg (fun x => State.mk x bHej 110 c dl) (by decide)

/-- Message-word load of the `Key0` compression instance. -/
lemma loadM_Key0 : loadM bKey0 = mKey0 := by decide

/-- Working-vector initialization of the `Key0` compression instance. -/
lemma initV_Key0 : initV h32i 128 true = vKey00 := by decide

-- Mixing round 0 of the `Key0` compression instance.
set_option maxRecDepth 4000 in
lemma round_Key0_0 : mixRound mKey0 vKey00 0 = vKey01 := by decide

-- Mixing round 1 of the `Key0` compression instance.
set_option maxRecDepth 4000 in
lemma round_Key0_1 : mixRound mKey0 vKey01 1 = vKey02 := by decide

-- Mixing round 2 of the `Key0` compression instance.
set_option maxRecDepth 4000 in
lemma round_Key0_2 : mixRound mKey0 vKey02 2 = vKey03 := by decide

-- Mixing round 3 of the `Key0` compression instance.
set_option maxRecDepth 4000 in
lemma round_Key0_3 : mixRound mKey0 vKey03 3 = vKey04 := by decide

-- Mixing round 4 of the `Key0` compression instance.
set_option maxRecDepth 4000 in
lemma round_Key0_4 : mixRound mKey0 vKey04 4 = vKey05 := by decide

-- Mixing round 5 of the `Key0` compression instance.
set_option maxRecDepth 4000 in
lemma round_Key0_5 : mixRound mKey0 vKey05 5 = vKey06 := by decide

-- Mixing round 6 of the `Key0` compression instance.
set_option maxRecDepth 4000 in
lemma round_Key0_6 : mixRound mKey0 vKey06 6 = vKey07 := by decide

-- Mixing round 7 of the `Key0` compression instance.
set_option maxRecDepth 4000 in
lemma round_Key0_7 : mixRound mKey0 vKey07 7 = vKey08 := by decide

-- Mixing round 8 of the `Key0` compression instance.
set_option maxRecDepth 4000 in
lemma round_Key0_8 : mixRound mKey0 vKey08 8 = vKey09 := by decide

-- Mixing round 9 of the `Key0` compression instance.
set_option maxRecDepth 4000 in
lemma round_Key0_9 : mixRound mKey0 vKey09 9 = vKey010 := by decide

-- Mixing round 10 of the `Key0` compression instance.
set_option maxRecDepth 4000 in
lemma round_Key0_10 : mixRound mKey0 vKey010 10 = vKey011 := by decide

-- Mixing round 11 of the `Key0` compression instance.
set_option maxRecDepth 4000 in
lemma round_Key0_11 : mixRound mKey0 vKey011 11 = vKey012 := by decide

/-- The twelve mixing rounds of the `Key0` compression instance. -/
lemma fold_Key0 : (List.range 12).foldl (mixRound mKey0) vKey00 = vKey012 := by
  rw [show List.range 12 = [0, 1, 2, 3, 4, 5, 6, 7, 8, 9, 10, 11] from rfl]
  simp only [List.foldl_cons, List.foldl_nil]
  rw [round_Key0_0, round_Key0_1, round_Key0_2, round_Key0_3, round_Key0_4, round_Key0_5, round_Key0_6, round_Key0_7, round_Key0_8, round_Key0_9, round_Key0_10, round_Key0_11]

/-- Full compression of the `Key0` instance, for any fill pointer and
digest length (the compression function touches neither). -/
lemma compress_Key0 (c dl : Nat) :
    blake2bCompress ⟨h32i, bKey0, 128, c, dl⟩ true = ⟨hKey0o, bKey0, 128, c, dl⟩ := by
  show (⟨(List.range 16).map (fun i => ((h32i : List Nat)).getD i 0 ^^^
      ((List.range 12).foldl (mixRound (loadM bKey0)) (initV h32i 128 true)).getD i 0 ^^^
      ((List.range 12).foldl (mixRound (loadM bKey0)) (initV h32i 128 true)).getD (i + 16) 0),
      bKey0, 128, c, dl⟩ : State) = ⟨hKey0o, bKey0, 128, c, dl⟩
  rw [loadM_Key0, initV_Key0, fold_Key0]
  exact congrArg (fun x => State.mk x bKey0 128 c dl) (by decide)

/-- Message-word load of the `Unkey` compression instance. -/
lemma loadM_Unkey : loadM bUnkey = mUnkey := by decide

/-- Working-vector initialization of the `Unkey` compression instance. -/
lemma initV_Unkey : initV h32i 0 true = vUnkey0 := by decide

-- Mixing round 0 of the `Unkey` compression instance.
set_option maxRecDepth 4000 in
lemma round_Unkey_0 : mixRound mUnkey vUnkey0 0 = vUnkey1 := by decide

-- Mixing round 1 of the `Unkey` compression instance.
set_option maxRecDepth 4000 in
lemma round_Unkey_1 : mixRound mUnkey vUnkey1 1 = vUnkey2 := by decide

-- Mixing round 2 of the `Unkey` compression instance.
set_option maxRecDepth 4000 in
lemma round_Unkey_2 : mixRound mUnkey vUnkey2 2 = vUnkey3 := by decide

-- Mixing round 3 of the `Unkey` compression instance.
set_option maxRecDepth 4000 in
lemma round_Unkey_3 : mixRound mUnkey vUnkey3 3 = vUnkey4 := by decide

-- Mixing round 4 of the `Unkey` compression instance.
set_option maxRecDepth 4000 in
lemma round_Unkey_4 : mixRound mUnkey vUnkey4 4 = vUnkey5 := by decide

-- Mixing round 5 of the `Unkey` compression instance.
set_option maxRecDepth 4000 in
lemma round_Unkey_5 : mixRound mUnkey vUnkey5 5 = vUnkey6 := by decide

-- Mixing round 6 of the `Unkey` compression instance.
set_option maxRecDepth 4000 in
lemma round_Unkey_6 : mixRound mUnkey vUnkey6 6 = vUnkey7 := by decide

-- Mixing round 7 of the `Unkey` compression instance.
set_option maxRecDepth 4000 in
lemma round_Unkey_7 : mixRound mUnkey vUnkey7 7 = vUnkey8 := by decide

-- Mixing round 8 of the `Unkey` compression instance.
set_option maxRecDepth 4000 in
lemma round_Unkey_8 : mixRound mUnkey vUnkey8 8 = vUnkey9 := by decide

-- Mixing round 9 of the `Unkey` compression instance.
set_option maxRecDepth 4000 in
lemma round_Unkey_9 : mixRound mUnkey vUnkey9 9 = vUnkey10 := by decide

-- Mixing round 10 of the `Unkey` compression instance.
set_option maxRecDepth 4000 in
lemma round_Unkey_10 : mixRound mUnkey vUnkey10 10 = vUnkey11 := by decide

-- Mixing round 11 of the `Unkey` compression instance.
set_option maxRecDepth 4000 in
lemma round_Unkey_11 : mixRound mUnkey vUnkey11 11 = vUnkey12 := by decide

/-- The twelve mixing rounds of the `Unkey` compression instance. -/
lemma fold_Unkey : (List.range 12).foldl (mixRound mUnkey) vUnkey0 = vUnkey12 := by
  rw [show List.range 12 = [0, 1, 2, 3, 4, 5, 6, 7, 8, 9, 10, 11] from rfl]
  simp only [List.foldl_cons, List.foldl_nil]
  rw [round_Unkey_0, round_Unkey_1, round_Unkey_2, round_Unkey_3, round_Unkey_4, round_Unkey_5, round_Unkey_6, round_Unkey_7, round_Unkey_8, round_Unkey_9, round_Unkey_10, round_Unkey_11]

/-- Full compression of the `Unkey` instance, for any fill pointer and
digest length (the compression function touches neither). -/
lemma compress_Unkey (c dl : Nat) :
    blake2bCompress ⟨h32i, bUnkey, 0, c, dl⟩ true = ⟨hUnkeyo, bUnkey, 0, c, dl⟩ := by
  show (⟨(List.range 16).map (fun i => ((h32i : List Nat)).getD i 0 ^^^
      ((List.range 12).foldl (mixRound (loadM bUnkey)) (initV h32i 0 true)).getD i 0 ^^^
      ((List.range 12).foldl (mixRound (loadM bUnkey)) (initV h32i 0 true)).getD (i + 16) 0),
      bUnkey, 0, c, dl⟩ : State) = ⟨hUnkeyo, bUnkey, 0, c, dl⟩
  rw [loadM_Unkey, initV_Unkey, fold_Unkey]
  exact congrArg (fun x => State.mk x bUnkey 0 c dl) (by decide)

/-- Finalization of the `Abc` instance evaluated to its digest bytes. -/
lemma digest_Abc : blake2bDigest ⟨h64i, bAbc, 0, 3, 64⟩ = [186, 128, 165, 63, 152, 28, 77, 13, 106, 39, 151, 182, 159, 18, 246, 233, 76, 33, 47, 20, 104, 90, 196, 183, 75, 18, 187, 111, 219, 255, 162, 209, 125, 135, 197, 57, 42, 171, 121, 45, 194, 82, 213, 222, 69, 51, 204, 149, 24, 211, 138, 168, 219, 241, 146, 90, 185, 35, 134, 237, 212, 0, 153, 35] := by
  show hOut (blake2bCompress ⟨h64i, setAt bAbc 3 (List.replicate (128 - 3) 0),
      0 + 3, 3, 64⟩ true).h 64 = _
  rw [show setAt bAbc 3 (List.replicate (128 - 3) 0) = bAbc from by decide,
    show 0 + 3 = 3 from rfl, compress_Abc]
  decide

/-- Finalization of the `Hej` instance evaluated to its digest bytes. -/
lemma digest_Hej : blake2bDigest ⟨h32i, bHej, 0, 110, 32⟩ = [203, 194, 15, 52, 127, 93, 254, 55, 220, 19, 35, 28, 191, 126, 170, 78, 196, 142, 88, 94, 192, 85, 169, 104, 57, 178, 19, 246, 43, 216, 206, 0] := by
  show hOut (blake2bCompress ⟨h32i, setAt bHej 110 (List.replicate (128 - 110) 0),
      0 + 110, 110, 32⟩ true).h 32 = _
  rw [show setAt bHej 110 (List.replicate (128 - 110) 0) = bHej from by decide,
    show 0 + 110 = 110 from rfl, compress_Hej]
  decide

/-- Finalization of the `Key0` instance evaluated to its digest bytes. -/
lemma digest_Key0 : blake2bDigest ⟨h32i, bKey0, 0, 128, 32⟩ = [55, 141, 12, 170, 170, 56, 85, 241, 179, 134, 147, 193, 214, 239, 0, 79, 209, 24, 105, 28, 149, 201, 89, 212, 239, 169, 80, 214, 214, 252, 247, 193] := by
  show hOut (blake2bCompress ⟨h32i, setAt bKey0 128 (List.replicate (128 - 128) 0),
      0 + 128, 128, 32⟩ true).h 32 = _
  rw [show setAt bKey0 128 (List.replicate (128 - 128) 0) = bKey0 from by decide,
    show 0 + 128 = 128 from rfl, compress_Key0]
  decide

/-- Finalization of the `Unkey` instance evaluated to its digest bytes. -/
lemma digest_Unkey : blake2bDigest ⟨h32i, bUnkey, 0, 0, 32⟩ = [14, 87, 81, 192, 38, 229, 67, 178, 232, 171, 46, 176, 96, 153, 218, 161, 209, 229, 223, 71, 119, 143, 119, 135, 250, 171, 69, 205, 241, 47, 227, 168] := by
  show hOut (blake2bCompress ⟨h32i, setAt bUnkey 0 (List.replicate (128 - 0) 0),
      0 + 0, 0, 32⟩ true).h 32 = _
  rw [show setAt bUnkey 0 (List.replicate (128 - 0) 0) = bUnkey from by decide,
    show 0 + 0 = 0 from rfl, compress_Unkey]
  decide

/-! ## List helper lemmas -/

lemma getD_set_pair (l : List Nat) (A X Y Q : Nat) (hA : A + 1 < l.length) :
    ((l.set A X).set (A + 1) Y).getD Q 0 =
      if Q = A then X else if Q = A + 1 then Y else l.getD Q 0 := by
  by_cases h1 : Q = A
  · subst h1
    rw [if_pos rfl]
    simp only [List.getD_eq_getElem?_getD]
    rw [List.getElem?_set_ne (by omega), List.getElem?_set_self (by omega)]
    rfl
  · rw [if_neg h1]
    by_cases h2 : Q = A + 1
    · subst h2
      rw [if_pos rfl]
      simp only [List.getD_eq_getElem?_getD]
      rw [List.getElem?_set_self (by simp; omega)]
      rfl
    · rw [if_neg h2]
      simp only [List.getD_eq_getElem?_getD]
      rw [List.getElem?_set_ne (by omega), List.getElem?_set_ne (by omega)]

lemma take_set_succ : ∀ (l : List Nat) (n x : Nat), n < l.length →
    (l.set n x).take (n + 1) = l.take n ++ [x]
  | _ :: _, 0, _, _ => rfl
  | a :: t, n + 1, x, h => by
    show a :: (t.set n x).take (n + 1) = a :: (t.take n ++ [x])
    exact congrArg _ (take_set_succ t n x (by simpa using h))

lemma drop_set_of_lt : ∀ (l : List Nat) (n m x : Nat), n < m →
    (l.set n x).drop m = l.drop m
  | [], _, _, _, _ => by simp
  | _ :: t, 0, m, x, h => by
    match m, h with
    | m + 1, _ => rfl
  | a :: t, n + 1, m, x, h => by
    match m, h with
    | m + 1, h => exact drop_set_of_lt t n m x (by omega)

lemma drop_replicate0 : ∀ (k n : Nat),
    (List.replicate n (0 : Nat)).drop k = List.replicate (n - k) 0
  | 0, n => by simp
  | k + 1, 0 => by simp
  | k + 1, n + 1 => by
    show (List.replicate n (0 : Nat)).drop k = _
    rw [drop_replicate0 k n]
    congr 1
    omega

/-- `setAt l off src` overwrites `src.length` positions starting at `off`:
it splits into prefix, source and suffix when everything fits. -/
lemma setAt_eq : ∀ (src l : List Nat) (off : Nat), off + src.length ≤ l.length →
    setAt l off src = l.take off ++ src ++ l.drop (off + src.length)
  | [], l, off, h => by
    show l = l.take off ++ [] ++ l.drop (off + 0)
    simp
  | x :: xs, l, off, h => by
    have hoff : off < l.length := by simp at h; omega
    show setAt (l.set off x) (off + 1) xs = _
    rw [setAt_eq xs (l.set off x) (off + 1) (by simp at h ⊢; omega)]
    rw [take_set_succ l off x hoff, drop_set_of_lt l off (off + 1 + xs.length) x (by omega)]
    rw [show off + 1 + xs.length = off + (x :: xs).length from by simp; omega]
    simp [List.append_assoc]

/-! ## Streaming protocol lemmas -/

/-- Core frame lemma of `blake2bUpdate`: as long as the input fits in the
remaining buffer space, updating writes the bytes at the fill pointer,
advances the pointer, and changes nothing else (no compression). -/
lemma update_fill (input : List Nat) : ∀ (s : State),
    s.b.length = 128 → s.c + input.length ≤ 128 →
    blake2bUpdate s input =
      ⟨s.h, s.b.take s.c ++ input ++ s.b.drop (s.c + input.length), s.t,
        s.c + input.length, s.digestLength⟩ := by
  induction input with
  | nil =>
    intro s hb hc
    show s = _
    cases s with
    | mk h b t c dl => simp
  | cons x xs ih =>
    intro s hb hc
    have hlt : s.c < 128 := by simp at hc; omega
    show blake2bUpdate (updateByte s x) xs = _
    have hstep : updateByte s x = ⟨s.h, s.b.set s.c x, s.t, s.c + 1, s.digestLength⟩ := by
      simp [updateByte, show ¬s.c = 128 from by omega]
    rw [hstep, ih _ (by simp [hb]) (by simp at hc ⊢; omega)]
    dsimp only
    rw [take_set_succ s.b s.c x (by omega),
      drop_set_of_lt s.b s.c (s.c + 1 + xs.length) x (by omega)]
    rw [show s.c + 1 + xs.length = s.c + (x :: xs).length from by simp; omega]
    simp [List.append_assoc]

/-- Folding `blake2bUpdate` over a list of chunks is updating once with
their concatenation (the update loop is byte-by-byte). -/
lemma foldl_update_flatten : ∀ (chunks : List (List Nat)) (s : State),
    List.foldl blake2bUpdate s chunks = blake2bUpdate s chunks.flatten
  | [], _ => rfl
  | c :: cs, s => by
    show List.foldl blake2bUpdate (blake2bUpdate s c) cs = _
    rw [foldl_update_flatten cs (blake2bUpdate s c)]
    show List.foldl updateByte (List.foldl updateByte s c) cs.flatten = _
    exact (List.foldl_append _ _ _ _).symm

/-! ## Refinement of the 32-bit-pair mixing onto the 64-bit G function -/

lemma M32_eq : M32 = 2 ^ 32 := by decide

lemma M64_eq : M64 = 2 ^ 64 := by decide

/-- XOR distributes over the (low, high) split of a value at a power of
two, provided both low parts are in range. -/
lemma xor_split (k l1 h1 l2 h2 : Nat) (hl1 : l1 < 2 ^ k) (hl2 : l2 < 2 ^ k) :
    (l1 + 2 ^ k * h1) ^^^ (l2 + 2 ^ k * h2) = (l1 ^^^ l2) + 2 ^ k * (h1 ^^^ h2) := by
  apply Nat.eq_of_testBit_eq
  intro j
  have hx : l1 ^^^ l2 < 2 ^ k := Nat.xor_lt_two_pow hl1 hl2
  rw [Nat.add_comm l1, Nat.add_comm l2, Nat.add_comm (l1 ^^^ l2)]
  rw [Nat.testBit_xor, Nat.testBit_mul_pow_two_add h1 hl1 j,
    Nat.testBit_mul_pow_two_add h2 hl2 j, Nat.testBit_mul_pow_two_add (h1 ^^^ h2) hx j]
  by_cases hj : j < k
  · simp [hj, Nat.testBit_xor]
  · simp [hj, Nat.testBit_xor]

/-- XOR of values with disjoint bit ranges is addition. -/
lemma xor_of_disjoint (k : Nat) {a b : Nat} (ha : a < 2 ^ k) (hb : b % 2 ^ k = 0) :
    a ^^^ b = a + b := by
  have hq : 2 ^ k * (b / 2 ^ k) = b := by
    rw [Nat.mul_comm]
    exact Nat.div_mul_cancel (Nat.dvd_of_mod_eq_zero hb)
  calc a ^^^ b = (a + 2 ^ k * 0) ^^^ (0 + 2 ^ k * (b / 2 ^ k)) := by rw [hq]; simp
    _ = (a ^^^ 0) + 2 ^ k * (0 ^^^ b / 2 ^ k) := xor_split k a 0 0 (b / 2 ^ k) ha (Nat.two_pow_pos k)
    _ = a + b := by simp [hq]

/-- `xor_split` at the uint32 boundary. -/
lemma xor_split_M32 {l1 h1 l2 h2 : Nat} (hl1 : l1 < M32) (hl2 : l2 < M32) :
    (l1 + M32 * h1) ^^^ (l2 + M32 * h2) = (l1 ^^^ l2) + M32 * (h1 ^^^ h2) := by
  rw [M32_eq] at hl1 hl2 ⊢
  exact xor_split 32 l1 h1 l2 h2 hl1 hl2

lemma rotr64_32 (z : Nat) : rotr64 z 32 = z % M64 / M32 + z % M64 % M32 * M32 := by
  simp only [rotr64, M32, M64]
  norm_num

lemma rotr64_24 (z : Nat) :
    rotr64 z 24 = z % M64 / 16777216 + z % M64 % 16777216 * 1099511627776 := by
  simp only [rotr64, M64]
  norm_num

lemma rotr64_16 (z : Nat) :
    rotr64 z 16 = z % M64 / 65536 + z % M64 % 65536 * 281474976710656 := by
  simp only [rotr64, M64]
  norm_num

lemma rotr64_63 (z : Nat) :
    rotr64 z 63 = z % M64 / 9223372036854775808 + z % M64 % 9223372036854775808 * 2 := by
  simp only [rotr64, M64]
  norm_num

/-- Writing a (low, high) pair at word `i` preserves the pairing invariant
when the written pair encodes the updated word. -/
lemma pairs_step {v : List Nat} {w : Nat → Nat} {i : Nat} {X Y Z : Nat}
    (hR : Pairs v w) (hi : i < 16) (hX : X < M32) (hY : Y < M32)
    (hZ : X + M32 * Y = Z) :
    Pairs ((v.set (2 * i) X).set (2 * i + 1) Y) (Function.update w i Z) := by
  obtain ⟨hlen, hp⟩ := hR
  refine ⟨by simp [hlen], fun j hj => ?_⟩
  have hA : 2 * i + 1 < v.length := by omega
  rw [getD_set_pair v (2 * i) X Y (2 * j) hA, getD_set_pair v (2 * i) X Y (2 * j + 1) hA]
  by_cases hji : j = i
  · subst hji
    rw [if_pos rfl, if_neg (show ¬(2 * j + 1 = 2 * j) from by omega), if_pos rfl]
    rw [Function.update_same]
    exact ⟨hX, hY, hZ⟩
  · rw [if_neg (show ¬(2 * j = 2 * i) from by omega),
      if_neg (show ¬(2 * j = 2 * i + 1) from by omega),
      if_neg (show ¬(2 * j + 1 = 2 * i) from by omega),
      if_neg (show ¬(2 * j + 1 = 2 * i + 1) from by omega)]
    rw [Function.update_noteq hji]
    exact hp j hj

/-- `ADD64AA` refines a 64-bit addition of word `k` into word `i`. -/
lemma ADD64AA_sim {v : List Nat} {w : Nat → Nat} {i k : Nat}
    (hR : Pairs v w) (hi : i < 16) (hk : k < 16) :
    Pairs (ADD64AA v (2 * i) (2 * k)) (Function.update w i ((w i + w k) % M64)) := by
  obtain ⟨hil, hih, hie⟩ := hR.2 i hi
  obtain ⟨hkl, hkh, hke⟩ := hR.2 k hk
  simp only [ADD64AA]
  refine pairs_step hR hi (Nat.mod_lt _ (by decide)) (Nat.mod_lt _ (by decide)) ?_
  rw [← hie, ← hke]
  simp only [M32, M64] at hil hih hkl hkh ⊢
  split_ifs with hcarry <;> omega

/-- `ADD64AC` refines a 64-bit addition of an immediate into word `i`. -/
lemma ADD64AC_sim {v : List Nat} {w : Nat → Nat} {i b0 b1 : Nat}
    (hR : Pairs v w) (hi : i < 16) (hb0 : b0 < M32) (_hb1 : b1 < M32) :
    Pairs (ADD64AC v (2 * i) b0 b1)
      (Function.update w i ((w i + (b0 + M32 * b1)) % M64)) := by
  obtain ⟨hil, hih, hie⟩ := hR.2 i hi
  simp only [ADD64AC]
  refine pairs_step hR hi (Nat.mod_lt _ (by decide)) (Nat.mod_lt _ (by decide)) ?_
  rw [← hie]
  simp only [M32, M64] at hil hih hb0 ⊢
  split_ifs with hcarry <;> omega

/-- The source's consecutive `ADD64AA`/`ADD64AC` pair refines the
spec line `v[a] = v[a] + v[b] + x` modulo 2^64. -/
lemma ADD64AAC_sim {v : List Nat} {w : Nat → Nat} {i k b0 b1 : Nat}
    (hR : Pairs v w) (hi : i < 16) (hk : k < 16) (hb0 : b0 < M32) (hb1 : b1 < M32) :
    Pairs (ADD64AC (ADD64AA v (2 * i) (2 * k)) (2 * i) b0 b1)
      (Function.update w i ((w i + w k + (b0 + M32 * b1)) % M64)) := by
  have h2 := ADD64AC_sim (ADD64AA_sim hR hi hk) hi hb0 hb1
  have hcollapse : Function.update (Function.update w i ((w i + w k) % M64)) i
      ((Function.update w i ((w i + w k) % M64) i + (b0 + M32 * b1)) % M64) =
      Function.update w i ((w i + w k + (b0 + M32 * b1)) % M64) := by
    rw [Function.update_same, Function.update_idem, Nat.mod_add_mod]
  rwa [hcollapse] at h2

/-- The inlined rotate-right-32 block refines
`v[d] = rotr64(v[d] XOR v[a], 32)`. -/
lemma ROTR32X_sim {v : List Nat} {w : Nat → Nat} {i k : Nat}
    (hR : Pairs v w) (hi : i < 16) (hk : k < 16) :
    Pairs (ROTR32X v (2 * i) (2 * k)) (Function.update w i (rotr64 (w i ^^^ w k) 32)) := by
  obtain ⟨hil, hih, hie⟩ := hR.2 i hi
  obtain ⟨hkl, hkh, hke⟩ := hR.2 k hk
  have hil2 : v.getD (2 * i) 0 < 2 ^ 32 := by rw [← M32_eq]; exact hil
  have hih2 : v.getD (2 * i + 1) 0 < 2 ^ 32 := by rw [← M32_eq]; exact hih
  have hkl2 : v.getD (2 * k) 0 < 2 ^ 32 := by rw [← M32_eq]; exact hkl
  have hkh2 : v.getD (2 * k + 1) 0 < 2 ^ 32 := by rw [← M32_eq]; exact hkh
  have hxl : v.getD (2 * i) 0 ^^^ v.getD (2 * k) 0 < 2 ^ 32 :=
    Nat.xor_lt_two_pow hil2 hkl2
  have hxh : v.getD (2 * i + 1) 0 ^^^ v.getD (2 * k + 1) 0 < 2 ^ 32 :=
    Nat.xor_lt_two_pow hih2 hkh2
  simp only [ROTR32X]
  refine pairs_step hR hi (by rw [M32_eq]; exact hxh) (by rw [M32_eq]; exact hxl) ?_
  rw [← hie, ← hke, xor_split_M32 hil hkl, rotr64_32]
  simp only [M32, M64]
  omega

/-- The inlined rotate-right-24 block refines
`v[b] = rotr64(v[b] XOR v[c], 24)`. -/
lemma ROTR24X_sim {v : List Nat} {w : Nat → Nat} {i k : Nat}
    (hR : Pairs v w) (hi : i < 16) (hk : k < 16) :
    Pairs (ROTR24X v (2 * i) (2 * k)) (Function.update w i (rotr64 (w i ^^^ w k) 24)) := by
  obtain ⟨hil, hih, hie⟩ := hR.2 i hi
  obtain ⟨hkl, hkh, hke⟩ := hR.2 k hk
  have hil2 : v.getD (2 * i) 0 < 2 ^ 32 := by rw [← M32_eq]; exact hil
  have hih2 : v.getD (2 * i + 1) 0 < 2 ^ 32 := by rw [← M32_eq]; exact hih
  have hkl2 : v.getD (2 * k) 0 < 2 ^ 32 := by rw [← M32_eq]; exact hkl
  have hkh2 : v.getD (2 * k + 1) 0 < 2 ^ 32 := by rw [← M32_eq]; exact hkh
  have hxl : v.getD (2 * i) 0 ^^^ v.getD (2 * k) 0 < 2 ^ 32 :=
    Nat.xor_lt_two_pow hil2 hkl2
  have hxh : v.getD (2 * i + 1) 0 ^^^ v.getD (2 * k + 1) 0 < 2 ^ 32 :=
    Nat.xor_lt_two_pow hih2 hkh2
  simp only [ROTR24X]
  refine pairs_step hR hi ?_ ?_ ?_
  · rw [M32_eq, Nat.shiftRight_eq_div_pow, Nat.shiftLeft_eq]
    exact Nat.xor_lt_two_pow (by omega) (Nat.mod_lt _ (by omega))
  · rw [M32_eq, Nat.shiftRight_eq_div_pow, Nat.shiftLeft_eq]
    exact Nat.xor_lt_two_pow (by omega) (Nat.mod_lt _ (by omega))
  · rw [Nat.shiftRight_eq_div_pow, Nat.shiftRight_eq_div_pow,
      Nat.shiftLeft_eq, Nat.shiftLeft_eq]
    have hda : (v.getD (2 * i) 0 ^^^ v.getD (2 * k) 0) / 2 ^ 24 ^^^
        (v.getD (2 * i + 1) 0 ^^^ v.getD (2 * k + 1) 0) * 2 ^ 8 % M32 =
        (v.getD (2 * i) 0 ^^^ v.getD (2 * k) 0) / 2 ^ 24 +
        (v.getD (2 * i + 1) 0 ^^^ v.getD (2 * k + 1) 0) * 2 ^ 8 % M32 :=
      xor_of_disjoint 8 (by omega) (by simp only [M32]; omega)
    have hdb : (v.getD (2 * i + 1) 0 ^^^ v.getD (2 * k + 1) 0) / 2 ^ 24 ^^^
        (v.getD (2 * i) 0 ^^^ v.getD (2 * k) 0) * 2 ^ 8 % M32 =
        (v.getD (2 * i + 1) 0 ^^^ v.getD (2 * k + 1) 0) / 2 ^ 24 +
        (v.getD (2 * i) 0 ^^^ v.getD (2 * k) 0) * 2 ^ 8 % M32 :=
      xor_of_disjoint 8 (by omega) (by simp only [M32]; omega)
    rw [hda, hdb, ← hie, ← hke, xor_split_M32 hil hkl, rotr64_24]
    simp only [M32, M64]
    omega

/-- The inlined rotate-right-16 block refines
`v[d] = rotr64(v[d] XOR v[a], 16)`. -/
lemma ROTR16X_sim {v : List Nat} {w : Nat → Nat} {i k : Nat}
    (hR : Pairs v w) (hi : i < 16) (hk : k < 16) :
    Pairs (ROTR16X v (2 * i) (2 * k)) (Function.update w i (rotr64 (w i ^^^ w k) 16)) := by
  obtain ⟨hil, hih, hie⟩ := hR.2 i hi
  obtain ⟨hkl, hkh, hke⟩ := hR.2 k hk
  have hil2 : v.getD (2 * i) 0 < 2 ^ 32 := by rw [← M32_eq]; exact hil
  have hih2 : v.getD (2 * i + 1) 0 < 2 ^ 32 := by rw [← M32_eq]; exact hih
  have hkl2 : v.getD (2 * k) 0 < 2 ^ 32 := by rw [← M32_eq]; exact hkl
  have hkh2 : v.getD (2 * k + 1) 0 < 2 ^ 32 := by rw [← M32_eq]; exact hkh
  have hxl : v.getD (2 * i) 0 ^^^ v.getD (2 * k) 0 < 2 ^ 32 :=
    Nat.xor_lt_two_pow hil2 hkl2
  have hxh : v.getD (2 * i + 1) 0 ^^^ v.getD (2 * k + 1) 0 < 2 ^ 32 :=
    Nat.xor_lt_two_pow hih2 hkh2
  simp only [ROTR16X]
  refine pairs_step hR hi ?_ ?_ ?_
  · rw [M32_eq, Nat.shiftRight_eq_div_pow, Nat.shiftLeft_eq]
    exact Nat.xor_lt_two_pow (by omega) (Nat.mod_lt _ (by omega))
  · rw [M32_eq, Nat.shiftRight_eq_div_pow, Nat.shiftLeft_eq]
    exact Nat.xor_lt_two_pow (by omega) (Nat.mod_lt _ (by omega))
  · rw [Nat.shiftRight_eq_div_pow, Nat.shiftRight_eq_div_pow,
      Nat.shiftLeft_eq, Nat.shiftLeft_eq]
    have hda : (v.getD (2 * i) 0 ^^^ v.getD (2 * k) 0) / 2 ^ 16 ^^^
        (v.getD (2 * i + 1) 0 ^^^ v.getD (2 * k + 1) 0) * 2 ^ 16 % M32 =
        (v.getD (2 * i) 0 ^^^ v.getD (2 * k) 0) / 2 ^ 16 +
        (v.getD (2 * i + 1) 0 ^^^ v.getD (2 * k + 1) 0) * 2 ^ 16 % M32 :=
      xor_of_disjoint 16 (by omega) (by simp only [M32]; omega)
    have hdb : (v.getD (2 * i + 1) 0 ^^^ v.getD (2 * k + 1) 0) / 2 ^ 16 ^^^
        (v.getD (2 * i) 0 ^^^ v.getD (2 * k) 0) * 2 ^ 16 % M32 =
        (v.getD (2 * i + 1) 0 ^^^ v.getD (2 * k + 1) 0) / 2 ^ 16 +
        (v.getD (2 * i) 0 ^^^ v.getD (2 * k) 0) * 2 ^ 16 % M32 :=
      xor_of_disjoint 16 (by omega) (by simp only [M32]; omega)
    rw [hda, hdb, ← hie, ← hke, xor_split_M32 hil hkl, rotr64_16]
    simp only [M32, M64]
    omega

/-- The inlined rotate-right-63 block refines
`v[b] = rotr64(v[b] XOR v[c], 63)`. -/
lemma ROTR63X_sim {v : List Nat} {w : Nat → Nat} {i k : Nat}
    (hR : Pairs v w) (hi : i < 16) (hk : k < 16) :
    Pairs (ROTR63X v (2 * i) (2 * k)) (Function.update w i (rotr64 (w i ^^^ w k) 63)) := by
  obtain ⟨hil, hih, hie⟩ := hR.2 i hi
  obtain ⟨hkl, hkh, hke⟩ := hR.2 k hk
  have hil2 : v.getD (2 * i) 0 < 2 ^ 32 := by rw [← M32_eq]; exact hil
  have hih2 : v.getD (2 * i + 1) 0 < 2 ^ 32 := by rw [← M32_eq]; exact hih
  have hkl2 : v.getD (2 * k) 0 < 2 ^ 32 := by rw [← M32_eq]; exact hkl
  have hkh2 : v.getD (2 * k + 1) 0 < 2 ^ 32 := by rw [← M32_eq]; exact hkh
  have hxl : v.getD (2 * i) 0 ^^^ v.getD (2 * k) 0 < 2 ^ 32 :=
    Nat.xor_lt_two_pow hil2 hkl2
  have hxh : v.getD (2 * i + 1) 0 ^^^ v.getD (2 * k + 1) 0 < 2 ^ 32 :=
    Nat.xor_lt_two_pow hih2 hkh2
  simp only [ROTR63X]
  refine pairs_step hR hi ?_ ?_ ?_
  · rw [M32_eq, Nat.shiftRight_eq_div_pow, Nat.shiftLeft_eq]
    exact Nat.xor_lt_two_pow (by omega) (Nat.mod_lt _ (by omega))
  · rw [M32_eq, Nat.shiftRight_eq_div_pow, Nat.shiftLeft_eq]
    exact Nat.xor_lt_two_pow (by omega) (Nat.mod_lt _ (by omega))
  · rw [Nat.shiftRight_eq_div_pow, Nat.shiftRight_eq_div_pow,
      Nat.shiftLeft_eq, Nat.shiftLeft_eq]
    have hda : (v.getD (2 * i + 1) 0 ^^^ v.getD (2 * k + 1) 0) / 2 ^ 31 ^^^
        (v.getD (2 * i) 0 ^^^ v.getD (2 * k) 0) * 2 ^ 1 % M32 =
        (v.getD (2 * i + 1) 0 ^^^ v.getD (2 * k + 1) 0) / 2 ^ 31 +
        (v.getD (2 * i) 0 ^^^ v.getD (2 * k) 0) * 2 ^ 1 % M32 :=
      xor_of_disjoint 1 (by omega) (by simp only [M32]; omega)
    have hdb : (v.getD (2 * i) 0 ^^^ v.getD (2 * k) 0) / 2 ^ 31 ^^^
        (v.getD (2 * i + 1) 0 ^^^ v.getD (2 * k + 1) 0) * 2 ^ 1 % M32 =
        (v.getD (2 * i) 0 ^^^ v.getD (2 * k) 0) / 2 ^ 31 +
        (v.getD (2 * i + 1) 0 ^^^ v.getD (2 * k + 1) 0) * 2 ^ 1 % M32 :=
      xor_of_disjoint 1 (by omega) (by simp only [M32]; omega)
    rw [hda, hdb, ← hie, ← hke, xor_split_M32 hil hkl, rotr64_63]
    simp only [M32, M64]
    omega

/-- **C3**: the 32-bit-pair mixing routine `B2B_G` is a refinement of the
specified 64-bit G function: for every working vector of sixteen 64-bit
words stored as 32-bit half pairs, every index quadruple `(a, b, c, d)`
into the 16-word view, and every pair of 64-bit message words `x`, `y`
(read as uint32 halves from the message vector), running `B2B_G` computes,
modulo 2^64, exactly the spec's eight G assignments. -/
theorem c3_b2bg_refines_g (v : List Nat) (w : Nat → Nat) (m : List Nat)
    (a b c d ix iy : Nat) (hR : Pairs v w)
    (ha : a < 16) (hb : b < 16) (hc : c < 16) (hd : d < 16)
    (hx0 : m.getD ix 0 < M32) (hx1 : m.getD (ix + 1) 0 < M32)
    (hy0 : m.getD iy 0 < M32) (hy1 : m.getD (iy + 1) 0 < M32) :
    Pairs (B2B_G v m (2 * a) (2 * b) (2 * c) (2 * d) ix iy)
      (GSpec64 w a b c d (m.getD ix 0 + M32 * m.getD (ix + 1) 0)
        (m.getD iy 0 + M32 * m.getD (iy + 1) 0)) := by
  simp only [B2B_G, GSpec64]
  have h1 := ADD64AAC_sim hR ha hb hx0 hx1
  have h2 := ROTR32X_sim h1 hd ha
  have h3 := ADD64AA_sim h2 hc hd
  have h4 := ROTR24X_sim h3 hb hc
  have h5 := ADD64AAC_sim h4 ha hb hy0 hy1
  have h6 := ROTR16X_sim h5 hd ha
  have h7 := ADD64AA_sim h6 hc hd
  exact ROTR63X_sim h7 hb hc

/-- `Pairs` is decidable, so witnesses can evaluate it. -/
instance (v : List Nat) (w : Nat → Nat) : Decidable (Pairs v w) :=
  decidable_of_iff (v.length = 32 ∧ ∀ j, j < 16 →
    v.getD (2 * j) 0 < M32 ∧ v.getD (2 * j + 1) 0 < M32 ∧
      v.getD (2 * j) 0 + M32 * v.getD (2 * j + 1) 0 = w j) Iff.rfl

/-- Witness for **C3** on a concrete state, the column quadruple
`(0, 4, 8, 12)` and small message words. -/
theorem c3_witness :
    (Pairs (List.range 32) (fun j => (List.range 32).getD (2 * j) 0 +
        M32 * (List.range 32).getD (2 * j + 1) 0) ∧
      (0 : Nat) < 16 ∧ (4 : Nat) < 16 ∧ (8 : Nat) < 16 ∧ (12 : Nat) < 16 ∧
      ([5, 6, 7, 8] : List Nat).getD 0 0 < M32 ∧
      ([5, 6, 7, 8] : List Nat).getD (0 + 1) 0 < M32 ∧
      ([5, 6, 7, 8] : List Nat).getD 2 0 < M32 ∧
      ([5, 6, 7, 8] : List Nat).getD (2 + 1) 0 < M32) ∧
    Pairs (B2B_G (List.range 32) [5, 6, 7, 8] (2 * 0) (2 * 4) (2 * 8) (2 * 12) 0 2)
      (GSpec64 (fun j => (List.range 32).getD (2 * j) 0 +
          M32 * (List.range 32).getD (2 * j + 1) 0) 0 4 8 12
        (([5, 6, 7, 8] : List Nat).getD 0 0 + M32 * ([5, 6, 7, 8] : List Nat).getD (0 + 1) 0)
        (([5, 6, 7, 8] : List Nat).getD 2 0 + M32 * ([5, 6, 7, 8] : List Nat).getD (2 + 1) 0)) :=
  ⟨⟨by decide, by decide, by decide, by decide, by decide,
      by decide, by decide, by decide, by decide⟩,
    c3_b2bg_refines_g (List.range 32)
      (fun j => (List.range 32).getD (2 * j) 0 + M32 * (List.range 32).getD (2 * j + 1) 0)
      [5, 6, 7, 8] 0 4 8 12 0 2 (by decide) (by decide) (by decide) (by decide)
      (by decide) (by decide) (by decide) (by decide) (by decide)⟩

/-! ## Claims -/

/-- **C1**: an unkeyed instance with digest length 64 and no salt or
personalization, updated with the 3-byte ASCII message "abc" and finalized,
yields exactly the 64-byte digest whose hex encoding is
`ba80a53f981c4d0d6a2797b69f12f6e94c212f14685ac4b74b12bb6fdbffa2d1`
`7d87c5392aab792dc252d5de4533cc9518d38aa8dbf1925ab92386edd4009923`
(RFC 7693 Appendix A test vector), here stated as the decoded bytes. -/
theorem c1_rfc7693_abc_vector :
    blake2bDigest (blake2bUpdate (init 64 none none none) [97, 98, 99]) =
      [186, 128, 165, 63, 152, 28, 77, 13, 106, 39, 151, 182, 159, 18, 246, 233,
       76, 33, 47, 20, 104, 90, 196, 183, 75, 18, 187, 111, 219, 255, 162, 209,
       125, 135, 197, 57, 42, 171, 121, 45, 194, 82, 213, 222, 69, 51, 204, 149,
       24, 211, 138, 168, 219, 241, 146, 90, 185, 35, 134, 237, 212, 0, 153, 35] := by
  rw [show blake2bUpdate (init 64 none none none) [97, 98, 99] = ⟨h64i, bAbc, 0, 3, 64⟩ from
    by decide]
  exact digest_Abc

/-- **C2**: chunking invariance — for every digest length in [1, 64], every
optional key/salt/personalization, and every finite list of byte chunks,
one update per chunk followed by finalization equals a single update with
the concatenation of all chunks followed by finalization. -/
theorem c2_chunking_invariance (n : Nat) (key salt personal : Option (List Nat))
    (chunks : List (List Nat)) (_h1 : 1 ≤ n) (_h64 : n ≤ 64) :
    blake2bDigest (List.foldl blake2bUpdate (init n key salt personal) chunks) =
      blake2bDigest (blake2bUpdate (init n key salt personal) chunks.flatten) :=
  congrArg blake2bDigest (foldl_update_flatten chunks _)

/-- Witness for **C2** at digest length 32, unkeyed, chunks `[[1], [2, 3]]`. -/
theorem c2_witness :
    (1 ≤ 32 ∧ 32 ≤ 64) ∧
    blake2bDigest (List.foldl blake2bUpdate (init 32 none none none) [[1], [2, 3]]) =
      blake2bDigest (blake2bUpdate (init 32 none none none) [[1], [2, 3]].flatten) :=
  ⟨⟨by decide, by decide⟩, c2_chunking_invariance 32 none none none [[1], [2, 3]] (by decide) (by decide)⟩

/-- **C4**: finalize adds the fill pointer to the byte counter, zero-fills
the buffer from the fill pointer to 128, compresses once with the
last-block flag, and serializes the first `digestLength` bytes of `h` in
little-endian word order; consequently the digest has length exactly
`digestLength`. -/
theorem c4_finalize (s : State) (hb : s.b.length = 128) (hc : s.c ≤ 128)
    (_h1 : 1 ≤ s.digestLength) (_h64 : s.digestLength ≤ 64) :
    blake2bDigest s =
      hOut (blake2bCompress ⟨s.h, s.b.take s.c ++ List.replicate (128 - s.c) 0,
        s.t + s.c, s.c, s.digestLength⟩ true).h s.digestLength ∧
    (blake2bDigest s).length = s.digestLength := by
  have hpad : setAt s.b s.c (List.replicate (128 - s.c) 0) =
      s.b.take s.c ++ List.replicate (128 - s.c) 0 := by
    rw [setAt_eq _ _ _ (by simp [hb]; omega)]
    rw [show s.c + (List.replicate (128 - s.c) (0 : Nat)).length = 128 from by simp; omega]
    rw [show s.b.drop 128 = [] from by rw [List.drop_eq_nil_iff]; omega]
    rw [List.append_nil]
  constructor
  · show hOut (blake2bCompress ⟨s.h, setAt s.b s.c (List.replicate (128 - s.c) 0),
      s.t + s.c, s.c, s.digestLength⟩ true).h s.digestLength = _
    rw [hpad]
  · show (hOut (blake2bCompress _ true).h s.digestLength).length = s.digestLength
    simp [hOut]

/-- Witness for **C4** at a fresh unkeyed digest-length-32 instance. -/
theorem c4_witness :
    ((init 32 none none none).b.length = 128 ∧ (init 32 none none none).c ≤ 128 ∧
      1 ≤ (init 32 none none none).digestLength ∧ (init 32 none none none).digestLength ≤ 64) ∧
    (blake2bDigest (init 32 none none none) =
      hOut (blake2bCompress ⟨(init 32 none none none).h,
        (init 32 none none none).b.take (init 32 none none none).c ++
          List.replicate (128 - (init 32 none none none).c) 0,
        (init 32 none none none).t + (init 32 none none none).c,
        (init 32 none none none).c, (init 32 none none none).digestLength⟩ true).h
        (init 32 none none none).digestLength ∧
      (blake2bDigest (init 32 none none none)).length = (init 32 none none none).digestLength) :=
  ⟨⟨by decide, by decide, by decide, by decide⟩,
    c4_finalize (init 32 none none none) (by decide) (by decide) (by decide) (by decide)⟩

/-- **C5**: for every key of length 1..64, the constructor leaves the
instance with buffer `key ++ zero padding`, fill pointer 128, and byte
counter 0; finalizing with no further update compresses that key block
with `t` advanced to 128, and equals the MAC of the empty message. -/
theorem c5_key_block_absorption (n : Nat) (key : List Nat)
    (h1 : 1 ≤ key.length) (h64 : key.length ≤ 64) :
    (init n (some key) none none).b = key ++ List.replicate (128 - key.length) 0 ∧
    (init n (some key) none none).c = 128 ∧
    (init n (some key) none none).t = 0 ∧
    blake2bDigest (init n (some key) none none) =
      hOut (blake2bCompress ⟨(init n (some key) none none).h,
        key ++ List.replicate (128 - key.length) 0, 128, 128,
        (init n (some key) none none).digestLength⟩ true).h
        (init n (some key) none none).digestLength ∧
    blake2bDigest (init n (some key) none none) =
      blake2bDigest (blake2bUpdate (init n (some key) none none) []) := by
  have hinit : init n (some key) none none =
      ⟨(List.range 16).map (fun i =>
          IV32.getD i 0 ^^^ GET32 (paramBlock n (some key) none none) (i * 4)),
        key ++ List.replicate (128 - key.length) 0, 0, 128, n⟩ := by
    show { blake2bUpdate ⟨(List.range 16).map (fun i =>
        IV32.getD i 0 ^^^ GET32 (paramBlock n (some key) none none) (i * 4)),
        List.replicate 128 0, 0, 0, n⟩ key with c := 128 } = _
    rw [update_fill key _ (by simp) (by simp; omega)]
    dsimp only
    rw [List.take_zero, List.nil_append, Nat.zero_add, drop_replicate0]
  refine ⟨by rw [hinit], by rw [hinit], by rw [hinit], ?_, rfl⟩
  rw [hinit]
  rfl

/-- Witness for **C5** at digest length 32 and the one-byte key `[7]`. -/
theorem c5_witness :
    (1 ≤ ([7] : List Nat).length ∧ ([7] : List Nat).length ≤ 64) ∧
    ((init 32 (some [7]) none none).b = [7] ++ List.replicate (128 - ([7] : List Nat).length) 0 ∧
      (init 32 (some [7]) none none).c = 128 ∧
      (init 32 (some [7]) none none).t = 0 ∧
      blake2bDigest (init 32 (some [7]) none none) =
        hOut (blake2bCompress ⟨(init 32 (some [7]) none none).h,
          [7] ++ List.replicate (128 - ([7] : List Nat).length) 0, 128, 128,
          (init 32 (some [7]) none none).digestLength⟩ true).h
          (init 32 (some [7]) none none).digestLength ∧
      blake2bDigest (init 32 (some [7]) none none) =
        blake2bDigest (blake2bUpdate (init 32 (some [7]) none none) [])) :=
  ⟨⟨by decide, by decide⟩, c5_key_block_absorption 32 [7] (by decide) (by decide)⟩

/-- **C6** (the code violates the claim): constructing with a zero-length
key (`some []`, a truthy empty `Uint8Array` in JS) does *not* hash like an
unkeyed instance: the constructor sets the fill pointer to 128 without
having absorbed any bytes, so an extra all-zero block is compressed with
`t = 128`.  Evaluated here on the empty message at digest length 32. -/
theorem c6_zero_length_key_diverges :
    blake2bDigest (blake2bUpdate (init 32 (some []) none none) []) ≠
      blake2bDigest (blake2bUpdate (init 32 none none none) []) := by
  rw [show blake2bUpdate (init 32 (some []) none none) [] = ⟨h32i, bKey0, 0, 128, 32⟩ from
    by decide]
  rw [show blake2bUpdate (init 32 none none none) [] = ⟨h32i, bUnkey, 0, 0, 32⟩ from
    by decide]
  rw [digest_Key0, digest_Unkey]
  decide

/-- **C7** (counterexample to the claim as stated): after a successful
`digest` call, a subsequent `update` call still succeeds — the source
`update` has no `finalized` guard, contradicting "every subsequent call to
update fails with AlreadyFinalized". -/
theorem c7_counterexample :
    Except.map (fun r => (apiUpdate r.2 [0]).isOk)
      (apiDigest ⟨init 64 none none none, false⟩) = Except.ok true := rfl

/-- **C7** (amended): a second `digest` call fails with `AlreadyFinalized`
(and a successful `digest` marks the instance finalized), but `update`
performs no finalized check and always succeeds. -/
theorem c7_amended_exactly_once (a : Api) (input : List Nat) :
    (a.finalized = true → apiDigest a = Except.error B2bError.AlreadyFinalized) ∧
    (∀ out a', apiDigest a = Except.ok (out, a') →
      a'.finalized = true ∧ apiDigest a' = Except.error B2bError.AlreadyFinalized) ∧
    (apiUpdate a input).isOk = true := by
  refine ⟨fun hf => by simp [apiDigest, hf], fun out a' h => ?_, rfl⟩
  by_cases hf : a.finalized
  · simp [apiDigest, hf] at h
  · simp [apiDigest, hf] at h
    obtain ⟨h1, h2⟩ := h
    subst h2
    exact ⟨rfl, by simp [apiDigest]⟩

/-- Witness for **C7** (amended) on a finalized digest-length-64 instance. -/
theorem c7_witness :
    apiDigest ⟨init 64 none none none, true⟩ = Except.error B2bError.AlreadyFinalized ∧
    (apiUpdate ⟨init 64 none none none, true⟩ [0]).isOk = true :=
  ⟨(c7_amended_exactly_once ⟨init 64 none none none, true⟩ [0]).1 rfl,
    (c7_amended_exactly_once ⟨init 64 none none none, true⟩ [0]).2.2⟩

/-- The ten-fold "Hej, Verden" pipeline of the multiple-writes test,
evaluated to its digest bytes. -/
lemma hej_pipeline :
    blake2bDigest ((List.range 10).foldl (fun s _ => blake2bUpdate s hejChunk)
      (init 32 none none none)) =
      [203, 194, 15, 52, 127, 93, 254, 55, 220, 19, 35, 28, 191, 126, 170, 78,
       196, 142, 88, 94, 192, 85, 169, 104, 57, 178, 19, 246, 43, 216, 206, 0] := by
  rw [show (List.range 10).foldl (fun s _ => blake2bUpdate s hejChunk)
      (init 32 none none none) = ⟨h32i, bHej, 0, 110, 32⟩ from by decide]
  exact digest_Hej

/-- **C8** (counterexample to the claim as stated): the digest of ten
"Hej, Verden" updates at length 32 does *not* hex-encode to the spec's
63-character string — a 32-byte digest always encodes to 64 hex
characters; the spec dropped the trailing `0`. -/
theorem c8_counterexample :
    toHexString (blake2bDigest ((List.range 10).foldl
      (fun s _ => blake2bUpdate s hejChunk) (init 32 none none none))) ≠
      "cbc20f347f5dfe37dc13231cbf7eaa4ec48e585ec055a96839b213f62bd8ce0" := by
  rw [hej_pipeline]
  decide

/-- **C8** (amended): that digest hex-encodes to
`cbc20f347f5dfe37dc13231cbf7eaa4ec48e585ec055a96839b213f62bd8ce00`
(64 characters, as in the repository's test). -/
theorem c8_amended_hej_vector :
    toHexString (blake2bDigest ((List.range 10).foldl
      (fun s _ => blake2bUpdate s hejChunk) (init 32 none none none))) =
      "cbc20f347f5dfe37dc13231cbf7eaa4ec48e585ec055a96839b213f62bd8ce00" := by
  rw [hej_pipeline]
  decide

/-- **C9** (counterexample to the claim as stated): the plain-TypeScript
module's exported `INPUTBYTES_MAX`, the JS number `2 ** 128 - 1`, does not
equal 2^128 − 1: float64 rounding yields exactly 2^128. -/
theorem c9_counterexample : INPUTBYTES_MAX_number ≠ 2 ^ 128 - 1 := by decide

/-- **C9** (amended): the exported limit constants match the spec's
advertised values; the bigint `INPUTBYTES_MAX` equals 2^128 − 1 exactly,
while the numeric variant evaluates to 2^128. -/
theorem c9_amended_constants :
    BYTES_MIN = 1 ∧ BYTES_MAX = 64 ∧ DIGESTBYTES_MIN = 1 ∧ DIGESTBYTES_MAX = 64 ∧
    KEYBYTES_MIN = 0 ∧ KEYBYTES_MAX = 64 ∧ SALTBYTES = 16 ∧ PERSONALBYTES = 16 ∧
    INPUTBYTES_MAX = 2 ^ 128 - 1 ∧ INPUTBYTES_MAX_number = 2 ^ 128 :=
  ⟨rfl, rfl, rfl, rfl, rfl, rfl, rfl, rfl, rfl, by decide⟩

/-- **C10**: frame property of update — when the input fits in the buffer
(`c < 128` and `c + len ≤ 128`), a single update writes the input at
positions `c..c+len`, sets the fill pointer to `c + len`, and leaves the
chaining state, byte counter and digest length unchanged (no compression
occurs). -/
theorem c10_update_frame (s : State) (input : List Nat) (hb : s.b.length = 128)
    (_hc : s.c < 128) (hcl : s.c + input.length ≤ 128) :
    blake2bUpdate s input =
      ⟨s.h, s.b.take s.c ++ input ++ s.b.drop (s.c + input.length), s.t,
        s.c + input.length, s.digestLength⟩ :=
  update_fill input s hb hcl

/-- Witness for **C10** at a fresh digest-length-32 instance and a
two-byte input. -/
theorem c10_witness :
    ((init 32 none none none).b.length = 128 ∧ (init 32 none none none).c < 128 ∧
      (init 32 none none none).c + ([4, 7] : List Nat).length ≤ 128) ∧
    blake2bUpdate (init 32 none none none) [4, 7] =
      ⟨(init 32 none none none).h,
        (init 32 none none none).b.take (init 32 none none none).c ++ [4, 7] ++
          (init 32 none none none).b.drop
            ((init 32 none none none).c + ([4, 7] : List Nat).length),
        (init 32 none none none).t,
        (init 32 none none none).c + ([4, 7] : List Nat).length,
        (init 32 none none none).digestLength⟩ :=
  ⟨⟨by decide, by decide, by decide⟩,
    c10_update_frame (init 32 none none none) [4, 7] (by decide) (by decide) (by decide)⟩

end Blake2b
